import Mathlib

/-!
Verification development for the arithmetic rewrite simplifier of
`src/src/arith/rewrite_simplify.cc`.

The development shallowly embeds the scalar fragment of the expression IR and
the simplifier's visitors.  Conventions used throughout:

* The expression language covers exactly the node kinds the claims exercise:
  integer/float/boolean literals, variables, the arithmetic and logical
  binary operators, `Select`, `Cast` and builtin calls (arity at most 3,
  which covers every builtin the rewrite core inspects).  Vector nodes
  (`Ramp`, `Broadcast`) and `Let` are outside the embedded language; the
  vector-gated rule blocks of each visitor are therefore vacuous and elided
  with a comment at the corresponding position.
* C++ behaviour that is undefined or a fatal check (`ICHECK`) is modelled in
  an `Except Trap` monad: integer division by zero, signed 64-bit overflow
  and assertion failures are `Trap` values.
* Recursion of the rewrite engine is fuel-indexed.  The source bounds
  rewriting by a configurable maximum-rewrite-steps budget and returns the
  current expression unchanged when the budget is exhausted; fuel plays the
  role of that budget.
* Code of the repository that is used by `rewrite_simplify.cc` but is not
  under `src/` (the constant folder `const_fold.h`, the pattern helpers, the
  analyzer oracles, `ExtractConstraints`, the side-effect analysis) is
  modelled from the specification; each such definition carries a doc
  comment starting with `Modelled from the spec:`.
-/

namespace RS

/-- Scalar datatypes of the embedded IR: a 32-bit signed index type, the
boolean type, and a float type.  `is_index_type` holds exactly for `i32`. -/
inductive DT where
  | i32
  | b
  | f32
deriving DecidableEq, Repr

/-- Modelled from the spec: `IsIndexType(dtype)` -- integer, non-vector,
width at most the platform index width.  In the embedded scalar language this
is exactly the `i32` type. -/
def IsIndexType : DT → Bool
  | .i32 => true
  | _ => false

def DT.isBool : DT → Bool
  | .b => true
  | _ => false

def DT.isFloat : DT → Bool
  | .f32 => true
  | _ => false

/-- A builtin/call operator: its registered name together with its declared
side-effect level (0 = pure, 1 = read, 2 = update, 3 = embed), following the
spec's ordering `Pure < ReadState < UpdateState < Embed`. -/
structure CallOp where
  name : String
  effect : Nat
deriving DecidableEq, Repr

/-- Expression nodes of the embedded scalar IR.  Booleans are integer
literals of type `b` (value 0 or 1), as in the source IR.  Calls carry a
fixed arity of at most 3 (`if_then_else` is the widest builtin the core
inspects); unused argument slots hold the dummy literal `intImm .i32 0` and
are ignored by all definitions. -/
inductive Expr where
  | intImm (d : DT) (v : Int)
  | floatImm (d : DT) (v : Rat)
  | varE (name : String) (d : DT)
  | add (a b : Expr)
  | sub (a b : Expr)
  | mul (a b : Expr)
  | div (a b : Expr)
  | mod (a b : Expr)
  | floordiv (a b : Expr)
  | floormod (a b : Expr)
  | minE (a b : Expr)
  | maxE (a b : Expr)
  | eq (a b : Expr)
  | ne (a b : Expr)
  | lt (a b : Expr)
  | le (a b : Expr)
  | gt (a b : Expr)
  | ge (a b : Expr)
  | and (a b : Expr)
  | or (a b : Expr)
  | not (a : Expr)
  | select (c t f : Expr)
  | cast (d : DT) (a : Expr)
  | call (d : DT) (op : CallOp) (arity : Nat) (a0 a1 a2 : Expr)
deriving DecidableEq, Repr

namespace Expr

/-- Node size, used as a termination measure. -/
def esize : Expr → Nat
  | .intImm _ _ => 1
  | .floatImm _ _ => 1
  | .varE _ _ => 1
  | .add a b => 1 + esize a + esize b
  | .sub a b => 1 + esize a + esize b
  | .mul a b => 1 + esize a + esize b
  | .div a b => 1 + esize a + esize b
  | .mod a b => 1 + esize a + esize b
  | .floordiv a b => 1 + esize a + esize b
  | .floormod a b => 1 + esize a + esize b
  | .minE a b => 1 + esize a + esize b
  | .maxE a b => 1 + esize a + esize b
  | .eq a b => 1 + esize a + esize b
  | .ne a b => 1 + esize a + esize b
  | .lt a b => 1 + esize a + esize b
  | .le a b => 1 + esize a + esize b
  | .gt a b => 1 + esize a + esize b
  | .ge a b => 1 + esize a + esize b
  | .and a b => 1 + esize a + esize b
  | .or a b => 1 + esize a + esize b
  | .not a => 1 + esize a
  | .select c t f => 1 + esize c + esize t + esize f
  | .cast _ a => 1 + esize a
  | .call _ _ _ a b c => 1 + esize a + esize b + esize c

/-- Datatype of a node.  Arithmetic nodes take the datatype of their first
operand (operands of a well-typed node agree); comparisons and logical
connectives are boolean. -/
def dtype : Expr → DT
  | .intImm d _ => d
  | .floatImm d _ => d
  | .varE _ d => d
  | .add a _ => dtype a
  | .sub a _ => dtype a
  | .mul a _ => dtype a
  | .div a _ => dtype a
  | .mod a _ => dtype a
  | .floordiv a _ => dtype a
  | .floormod a _ => dtype a
  | .minE a _ => dtype a
  | .maxE a _ => dtype a
  | .eq _ _ => .b
  | .ne _ _ => .b
  | .lt _ _ => .b
  | .le _ _ => .b
  | .gt _ _ => .b
  | .ge _ _ => .b
  | .and _ _ => .b
  | .or _ _ => .b
  | .not _ => .b
  | .select _ t _ => dtype t
  | .cast d _ => d
  | .call d _ _ _ _ _ => d

end Expr

open Expr

/-- Boolean literal of the IR (an integer immediate of boolean type). -/
def boolImm (v : Bool) : Expr := .intImm .b (if v then 1 else 0)

/-- `OneWithTypeLike(x)`: the literal 1 with `x`'s datatype. -/
def OneWithTypeLike (x : Expr) : Expr := .intImm x.dtype 1

/-- `ZeroWithTypeLike(x)`: the literal 0 with `x`'s datatype. -/
def ZeroWithTypeLike (x : Expr) : Expr := .intImm x.dtype 0

/-- Modelled from the spec: integer constant folding wraps on the declared
width (§4.2).  Booleans are produced as 0/1 by the folding code itself. -/
def wrapDT : DT → Int → Int
  | .i32, v => (v + 2 ^ 31).emod (2 ^ 32) - 2 ^ 31
  | .b, v => v
  | .f32, v => v

/-- Truncated division on mathematical integers (C semantics, rounds toward
zero): used by the folding of `Div`. -/
def tdivI (a b : Int) : Int := a.tdiv b

/-- Truncated remainder on mathematical integers (C semantics). -/
def tmodI (a b : Int) : Int := a.tmod b

/-- Floored division on mathematical integers (rounds toward `-inf`). -/
def fdivI (a b : Int) : Int := a.fdiv b

/-- Floored remainder on mathematical integers. -/
def fmodI (a b : Int) : Int := a.fmod b

/-- Modelled from the spec: `TryConstFold<Op>(a, b)` of the missing
`const_fold.h` returns a literal when both operands are literals of the same
type; it honors the op's exact semantics (truncated vs. floored
division/modulus, wrap on the declared width) and returns "none" rather than
folding on division or modulus by zero (§4.2, §7).  Float literals are
modelled as rationals; their folding is exact field arithmetic (IEEE rounding
is outside the model) and float division by zero does not fold (IEEE
infinities are outside the rational model). -/
def TryConstFold2 (k : Expr → Expr → Expr) (a b : Expr) : Option Expr :=
  match a, b with
  | .intImm d1 v1, .intImm d2 v2 =>
    if d1 = d2 then
      match k a b with
      | .add _ _ => some (.intImm d1 (wrapDT d1 (v1 + v2)))
      | .sub _ _ => some (.intImm d1 (wrapDT d1 (v1 - v2)))
      | .mul _ _ => some (.intImm d1 (wrapDT d1 (v1 * v2)))
      | .div _ _ => if v2 = 0 then none else some (.intImm d1 (wrapDT d1 (tdivI v1 v2)))
      | .mod _ _ => if v2 = 0 then none else some (.intImm d1 (wrapDT d1 (tmodI v1 v2)))
      | .floordiv _ _ => if v2 = 0 then none else some (.intImm d1 (wrapDT d1 (fdivI v1 v2)))
      | .floormod _ _ => if v2 = 0 then none else some (.intImm d1 (wrapDT d1 (fmodI v1 v2)))
      | .minE _ _ => some (.intImm d1 (min v1 v2))
      | .maxE _ _ => some (.intImm d1 (max v1 v2))
      | .eq _ _ => some (boolImm (v1 = v2))
      | .ne _ _ => some (boolImm (v1 ≠ v2))
      | .lt _ _ => some (boolImm (v1 < v2))
      | .le _ _ => some (boolImm (v1 ≤ v2))
      | .gt _ _ => some (boolImm (v1 > v2))
      | .ge _ _ => some (boolImm (v1 ≥ v2))
      | .and _ _ => some (boolImm (v1 ≠ 0 ∧ v2 ≠ 0))
      | .or _ _ => some (boolImm (v1 ≠ 0 ∨ v2 ≠ 0))
      | _ => none
    else none
  | .floatImm d1 v1, .floatImm d2 v2 =>
    if d1 = d2 then
      match k a b with
      | .add _ _ => some (.floatImm d1 (v1 + v2))
      | .sub _ _ => some (.floatImm d1 (v1 - v2))
      | .mul _ _ => some (.floatImm d1 (v1 * v2))
      | .div _ _ => if v2 = 0 then none else some (.floatImm d1 (v1 / v2))
      | .minE _ _ => some (.floatImm d1 (min v1 v2))
      | .maxE _ _ => some (.floatImm d1 (max v1 v2))
      | .eq _ _ => some (boolImm (v1 = v2))
      | .ne _ _ => some (boolImm (v1 ≠ v2))
      | .lt _ _ => some (boolImm (v1 < v2))
      | .le _ _ => some (boolImm (v1 ≤ v2))
      | .gt _ _ => some (boolImm (v1 > v2))
      | .ge _ _ => some (boolImm (v1 ≥ v2))
      | _ => none
    else none
  | _, _ => none

/-- Modelled from the spec: unary boolean folding (`TryConstFold<Not>`). -/
def TryConstFoldNot (a : Expr) : Option Expr :=
  match a with
  | .intImm .b v => some (boolImm (v = 0))
  | _ => none

/-- Smart constructor corresponding to the IR's `operator+` (eager constant
folding on construction, used by pattern evaluation). -/
def addOp (a b : Expr) : Expr := (TryConstFold2 .add a b).getD (.add a b)

def subOp (a b : Expr) : Expr := (TryConstFold2 .sub a b).getD (.sub a b)

def mulOp (a b : Expr) : Expr := (TryConstFold2 .mul a b).getD (.mul a b)

/-- Smart constructor for truncated division (`truncdiv` on expressions). -/
def truncdivOp (a b : Expr) : Expr := (TryConstFold2 .div a b).getD (.div a b)

def truncmodOp (a b : Expr) : Expr := (TryConstFold2 .mod a b).getD (.mod a b)

def floordivOp (a b : Expr) : Expr := (TryConstFold2 .floordiv a b).getD (.floordiv a b)

def floormodOp (a b : Expr) : Expr := (TryConstFold2 .floormod a b).getD (.floormod a b)

def minOp (a b : Expr) : Expr := (TryConstFold2 .minE a b).getD (.minE a b)

def maxOp (a b : Expr) : Expr := (TryConstFold2 .maxE a b).getD (.maxE a b)

def eqOp (a b : Expr) : Expr := (TryConstFold2 .eq a b).getD (.eq a b)

def neOp (a b : Expr) : Expr := (TryConstFold2 .ne a b).getD (.ne a b)

def ltOp (a b : Expr) : Expr := (TryConstFold2 .lt a b).getD (.lt a b)

def leOp (a b : Expr) : Expr := (TryConstFold2 .le a b).getD (.le a b)

def andOp (a b : Expr) : Expr := (TryConstFold2 .and a b).getD (.and a b)

def orOp (a b : Expr) : Expr := (TryConstFold2 .or a b).getD (.or a b)

def notOp (a : Expr) : Expr := (TryConstFoldNot a).getD (.not a)

/-- The IR's unary negation `operator-`: zero minus the operand. -/
def negOp (a : Expr) : Expr := subOp (.intImm a.dtype 0) a

/-- Size bound for the folding smart constructor on `not`. -/
theorem esize_notOp_le (a : Expr) : (notOp a).esize ≤ a.esize + 1 := by
  unfold notOp TryConstFoldNot
  cases a
  case intImm d v => cases d <;> simp [esize, boolImm]
  all_goals simp [esize] <;> omega

theorem esize_pos (a : Expr) : 0 < a.esize := by
  cases a <;> simp [esize]

/-- `NormalizeBooleanOperators` (lines 109-131): rewrites the spine of
boolean operators until a fixed point, eliminating double negation, pushing
negation through conjunction/disjunction (De Morgan), and dualizing
comparisons; any expression matching none of the shapes is returned
unchanged. -/
def NormalizeBooleanOperators (e : Expr) : Expr :=
  match e with
  | .not (.not x) => NormalizeBooleanOperators x
  | .not (.or x y) =>
      andOp (NormalizeBooleanOperators (notOp x)) (NormalizeBooleanOperators (notOp y))
  | .not (.and x y) =>
      orOp (NormalizeBooleanOperators (notOp x)) (NormalizeBooleanOperators (notOp y))
  | .ge x y => leOp y x
  | .not (.lt x y) => leOp y x
  | .not (.gt a b) => leOp a b
  | .gt x y => ltOp y x
  | .not (.le x y) => ltOp y x
  | .not (.ge a b) => ltOp a b
  | .not (.eq x y) => neOp x y
  | .not (.ne x y) => eqOp x y
  | e => e
termination_by e.esize
decreasing_by
  · simp [esize]; omega
  · have := esize_notOp_le x; have := esize_pos y; simp [esize]; omega
  · have := esize_notOp_le y; have := esize_pos x; simp [esize]; omega
  · have := esize_notOp_le x; have := esize_pos y; simp [esize]; omega
  · have := esize_notOp_le y; have := esize_pos x; simp [esize]; omega

/-- `ExtractConstantOffset` (lines 133-148): decompose `x + c`, `x - c`,
`c - x` into a base expression and a signed constant. -/
def ExtractConstantOffset (e : Expr) : Expr × Int :=
  match e with
  | .add x (.intImm _ c) => (x, c)
  | .sub x (.intImm _ c) => (x, -c)
  | .sub (.intImm _ c) x => (x, c)
  | _ => (e, 0)

/-- `ZeroAwareGCD`: `gcd(|a|,|b|)` with `gcd(0,x) = |x|`.  (The helper lives
in a header outside `src/`; this is the spec's §4.2 definition.)  The match
takes the absolute values of the two operands before the `Nat` gcd.
Modelled from the spec: `ZeroAwareGCD(a, b)`. -/
def ZeroAwareGCD (a b : Int) : Int :=
  match a, b with
  | .ofNat m, .ofNat n => (Nat.gcd m n : Nat)
  | .ofNat m, .negSucc n => (Nat.gcd m (n + 1) : Nat)
  | .negSucc m, .ofNat n => (Nat.gcd (m + 1) n : Nat)
  | .negSucc m, .negSucc n => (Nat.gcd (m + 1) (n + 1) : Nat)

/-- Failure modes of the C++ code: native integer division by zero and
signed-overflow (both undefined behaviour) and `ICHECK`/`LOG(FATAL)`
assertion failures. -/
inductive Trap where
  | divByZero
  | overflow
  | assertFail
deriving DecidableEq, Repr

def exceptDecEq {α β : Type} [DecidableEq α] [DecidableEq β] : DecidableEq (Except α β) :=
  fun a b =>
  match a, b with
  | .ok x, .ok y =>
      if h : x = y then isTrue (by rw [h]) else isFalse (by intro hh; cases hh; exact h rfl)
  | .error x, .error y =>
      if h : x = y then isTrue (by rw [h]) else isFalse (by intro hh; cases hh; exact h rfl)
  | .ok _, .error _ => isFalse (by intro hh; cases hh)
  | .error _, .ok _ => isFalse (by intro hh; cases hh)

instance {α β : Type} [DecidableEq α] [DecidableEq β] : DecidableEq (Except α β) := exceptDecEq

def i64Max : Int := 2 ^ 63 - 1

def i64Min : Int := -(2 ^ 63)

/-- Native C++ `int64_t` division: traps on a zero divisor (and on the one
overflowing dividend/divisor pair), otherwise truncates toward zero. -/
def cppDivI (a b : Int) : Except Trap Int :=
  if b = 0 then .error .divByZero
  else if a = i64Min ∧ b = -1 then .error .overflow
  else .ok (tdivI a b)

/-- Native C++ `int64_t` remainder: traps on a zero divisor. -/
def cppModI (a b : Int) : Except Trap Int :=
  if b = 0 then .error .divByZero
  else if a = i64Min ∧ b = -1 then .error .overflow
  else .ok (tmodI a b)

/-- Native C++ `int64_t` multiplication: signed overflow is undefined
behaviour, modelled as a trap. -/
def i64MulChk (a b : Int) : Except Trap Int :=
  if a * b < i64Min ∨ i64Max < a * b then .error .overflow else .ok (a * b)

/-- Native C++ `int64_t` addition with overflow trap. -/
def i64AddChk (a b : Int) : Except Trap Int :=
  if a + b < i64Min ∨ i64Max < a + b then .error .overflow else .ok (a + b)

/-- The 6-valued comparison lattice (`CompareResult`), represented as the
source's bitmask so that bitwise AND is intersection: `kEQ = 1`, `kLT = 2`,
`kLE = 3`, `kGT = 4`, `kGE = 5`, `kNE = 6`, `kUnknown = 7`. -/
def kInconsistent : Nat := 0

def kEQ : Nat := 1

def kLT : Nat := 2

def kLE : Nat := 3

def kGT : Nat := 4

def kGE : Nat := 5

def kNE : Nat := 6

def kUnknown : Nat := 7

/-- `ConstIntBound`: interval `[min_value, max_value]` with the source's
`int64` infinity sentinels. -/
structure ConstIntBound where
  min_value : Int
  max_value : Int
deriving DecidableEq, Repr

/-- `ConstIntBound::kPosInf` of the source: the largest `int64_t`. -/
def kPosInf : Int := i64Max

/-- `ConstIntBound::kNegInf` of the source: `-kPosInf`. -/
def kNegInf : Int := -i64Max

/-- `ModularSet`: the value lies in `{base + k * coeff}`. -/
structure ModularSet where
  coeff : Int
  base : Int
deriving DecidableEq, Repr

/-- Modelled from the spec: the analysis oracles the simplifier consumes as
opaque interfaces (§4.3): integer bounds, modular sets, the transitive
comparison prover (all relative to the analyzer's current constraint
context), the analyzer's `CanProve`, and the two external float/boolean
helpers the `Call` visitor and the and-of-ors extension delegate to
(`std::log2` over the rational float model; the CNF converter, which the
spec places out of scope). -/
structure Oracle where
  constIntBound : List Expr → Expr → ConstIntBound
  modularSet : List Expr → Expr → ModularSet
  transitiveCompare : List Expr → Expr → Expr → Bool → Nat
  canProve : List Expr → Expr → Bool
  flog2 : Rat → Rat
  cnfConvert : Expr → Expr

/-- The four extension flags (§6), modelled as named booleans instead of a
bitmask. -/
structure Flags where
  transitivelyProveInequalities : Bool
  comparisonOfProductAndSum : Bool
  applyConstraintsToBooleanBranches : Bool
  convertBooleanToAndOfOrs : Bool
deriving DecidableEq, Repr

def Flags.none : Flags := ⟨false, false, false, false⟩

/-- Simplifier-instance state threaded through the visitors: the borrowed
oracles, the extension flags, the variable substitution map, the literal
constraint stack, the analyzer's scoped constraint context (consumed only by
the oracles), and the flag guarding the and-of-ors hand-off. -/
structure Ctx where
  oracle : Oracle
  flags : Flags
  varMap : List ((String × DT) × Expr)
  stack : List Expr
  actx : List Expr
  recursivelyVisitingBoolean : Bool

/-- Modelled from the spec: the side-effect analysis `side_effect(e)` with
levels `Pure = 0 < ReadState = 1 < UpdateState = 2 < Embed = 3`; only calls
carry intrinsic effects. -/
def SideEffect : Expr → Nat
  | .intImm _ _ => 0
  | .floatImm _ _ => 0
  | .varE _ _ => 0
  | .add a b => max (SideEffect a) (SideEffect b)
  | .sub a b => max (SideEffect a) (SideEffect b)
  | .mul a b => max (SideEffect a) (SideEffect b)
  | .div a b => max (SideEffect a) (SideEffect b)
  | .mod a b => max (SideEffect a) (SideEffect b)
  | .floordiv a b => max (SideEffect a) (SideEffect b)
  | .floormod a b => max (SideEffect a) (SideEffect b)
  | .minE a b => max (SideEffect a) (SideEffect b)
  | .maxE a b => max (SideEffect a) (SideEffect b)
  | .eq a b => max (SideEffect a) (SideEffect b)
  | .ne a b => max (SideEffect a) (SideEffect b)
  | .lt a b => max (SideEffect a) (SideEffect b)
  | .le a b => max (SideEffect a) (SideEffect b)
  | .gt a b => max (SideEffect a) (SideEffect b)
  | .ge a b => max (SideEffect a) (SideEffect b)
  | .and a b => max (SideEffect a) (SideEffect b)
  | .or a b => max (SideEffect a) (SideEffect b)
  | .not a => SideEffect a
  | .select c t f => max (SideEffect c) (max (SideEffect t) (SideEffect f))
  | .cast _ a => SideEffect a
  | .call _ op _ a b c =>
      max op.effect (max (SideEffect a) (max (SideEffect b) (SideEffect c)))

/-- Modelled from the spec: `ExtractConstraints` of the missing
`constraint_extract.h` -- "a fixed AND-splitter" over top-level conjunctions
(§4.7); the `keep_composite` argument is `false` at the only call site. -/
def ExtractConstraints : Expr → List Expr
  | .and a b => ExtractConstraints a ++ ExtractConstraints b
  | e => [e]

/-- Modelled from the spec: `ContainsVscaleCall` -- whether the expression
contains a call to the runtime `vscale` intrinsic (scalable vectors). -/
def ContainsVscaleCall : Expr → Bool
  | .call _ op _ a b c =>
      op.name = "tir.vscale" || ContainsVscaleCall a || ContainsVscaleCall b ||
        ContainsVscaleCall c
  | .add a b | .sub a b | .mul a b | .div a b | .mod a b | .floordiv a b | .floormod a b
  | .minE a b | .maxE a b | .eq a b | .ne a b | .lt a b | .le a b | .gt a b | .ge a b
  | .and a b | .or a b => ContainsVscaleCall a || ContainsVscaleCall b
  | .not a | .cast _ a => ContainsVscaleCall a
  | .select c t f => ContainsVscaleCall c || ContainsVscaleCall t || ContainsVscaleCall f
  | _ => false

/-- `is_const_int`: an integer immediate. -/
def isConstInt : Expr → Bool
  | .intImm _ _ => true
  | _ => false

/-- `is_const_number`: an integer or float immediate. -/
def isConstNumber : Expr → Bool
  | .intImm _ _ => true
  | .floatImm _ _ => true
  | _ => false

/-- `TryMatchLiteralConstraint` (lines 1653-1666): compare the expression by
deep equality against each stacked constraint; a match yields the `true`
literal, a match of its negation yields `false`. -/
def TryMatchLiteralConstraint (stack : List Expr) (e : Expr) : Option Expr :=
  match stack with
  | [] => none
  | c :: rest =>
    if c = e then some (.intImm e.dtype 1)
    else if c = .not e then some (.intImm e.dtype 0)
    else TryMatchLiteralConstraint rest e

/-- Truncation of a rational toward zero (C cast semantics). -/
def qtruncI (q : Rat) : Int := q.num.tdiv q.den

/-- Modelled from the spec: the IR's `cast` helper of the missing `op.cc`;
a cast to the operand's own type is the identity, literals are converted,
anything else stays a `Cast` node. -/
def castOp (d : DT) (e : Expr) : Expr :=
  if e.dtype = d then e
  else match e with
    | .intImm _ v => if d = .f32 then .floatImm d (v : Rat) else .intImm d (wrapDT d v)
    | .floatImm _ v => if d = .f32 then .floatImm d v else .intImm d (wrapDT d (qtruncI v))
    | _ => .cast d e

def gtOp (a b : Expr) : Expr := (TryConstFold2 .gt a b).getD (.gt a b)

def geOp (a b : Expr) : Expr := (TryConstFold2 .ge a b).getD (.ge a b)

/-- Variable substitution map lookup (`var_map_`). -/
def varLookup (m : List ((String × DT) × Expr)) (n : String) (d : DT) : Option Expr :=
  (m.find? (fun p => p.1 = (n, d))).map (·.2)

/-- The type of the fuel-decremented re-entry into the rewrite engine
(`VisitExpr` / `RecursiveRewrite`, whose shared recursion budget is the
fuel). -/
def Rec : Type := Ctx → Expr → Except Trap Expr

/-- `CanProveGreaterEqual(x, val)` of the simplifier implementation: the
bound oracle proves `min_value >= val`.  Modelled from the spec: the helper
lives in the class declaration outside `src/` and is a `const_int_bound`
shortcut (§4.3). -/
def CanProveGreaterEqual (c : Ctx) (x : Expr) (v : Int) : Bool :=
  (c.oracle.constIntBound c.actx x).min_value ≥ v

/-- `CanProveLess(x, val)`: the bound oracle proves `max_value < val`.
Modelled from the spec: bound-oracle shortcut (§4.3). -/
def CanProveLess (c : Ctx) (x : Expr) (v : Int) : Bool :=
  (c.oracle.constIntBound c.actx x).max_value < v

/-- `CanProve(p)`: the enclosing analyzer's prover.  Modelled from the spec:
an opaque oracle (§4.3). -/
def CanProve (c : Ctx) (p : Expr) : Bool := c.oracle.canProve c.actx p

/-- `RewriteSimplifier::Impl::TryCompare(x, val)` (lines 324-366), the hot
literal path: visit `x`, decide from a literal result, else from the bound
and (for `val = 0`) the modular set. -/
def TryCompareLit (rec : Rec) (c : Ctx) (x : Expr) (val : Int) : Except Trap Nat := do
  let diff ← rec c x
  if let .intImm _ v := diff then
    if v = val then return kEQ
    else if v > val then return kGT
    else return kLT
  let dbound := c.oracle.constIntBound c.actx diff
  if dbound.min_value = val ∧ dbound.max_value = val then return kEQ
  if dbound.min_value > val then return kGT
  if dbound.max_value < val then return kLT
  if dbound.min_value ≥ val then return kGE
  if dbound.max_value ≤ val then return kLE
  if val = 0 then
    let dmod := c.oracle.modularSet c.actx diff
    if dmod.base ≠ 0 then return kNE
  return kUnknown

/-- `CanProveEqual(x, val)`: `TryCompare(x, val) == kEQ`.  Modelled from the
spec: proof shortcut of the class declaration (§4.3). -/
def CanProveEqual (rec : Rec) (c : Ctx) (x : Expr) (v : Int) : Except Trap Bool := do
  pure ((← TryCompareLit rec c x v) = kEQ)

/-- `TryCompareUsingKnownInequalities` (lines 174-178): the transitive
comparison oracle, with propagation gated by the extension flag. -/
def TryCompareUsingKnownInequalities (c : Ctx) (x y : Expr) : Nat :=
  c.oracle.transitiveCompare c.actx x y c.flags.transitivelyProveInequalities

/-- The special-case pattern match of `TryComparisonOfProductAndSum` (lines
187-215): recognize `(A+B)*C + (A*B)*D` (in four operand arrangements,
yielding `D` negated) or `(A+B)*C + (A*B)` (yielding `D = Integer(-1)`). -/
def matchProductSum (diff : Expr) : Option (Expr × Expr × Expr × Expr) :=
  (match diff with
   | .add (.mul (.add A B) C) (.mul (.mul p q) D) =>
       if p = A ∧ q = B then some (A, B, C, negOp D) else none
   | _ => none) <|>
  (match diff with
   | .add (.mul (.add A B) C) (.mul (.mul p q) D) =>
       if p = B ∧ q = A then some (A, B, C, negOp D) else none
   | _ => none) <|>
  (match diff with
   | .add (.mul (.mul p q) D) (.mul (.add A B) C) =>
       if p = A ∧ q = B then some (A, B, C, negOp D) else none
   | _ => none) <|>
  (match diff with
   | .add (.mul (.mul p q) D) (.mul (.add A B) C) =>
       if p = B ∧ q = A then some (A, B, C, negOp D) else none
   | _ => none) <|>
  (match diff with
   | .add (.mul (.add A B) C) (.mul p q) =>
       if p = A ∧ q = B then some (A, B, C, .intImm .i32 (-1)) else none
   | _ => none) <|>
  (match diff with
   | .add (.mul (.add A B) C) (.mul p q) =>
       if p = B ∧ q = A then some (A, B, C, .intImm .i32 (-1)) else none
   | _ => none) <|>
  (match diff with
   | .add (.mul p q) (.mul (.add A B) C) =>
       if p = A ∧ q = B then some (A, B, C, .intImm .i32 (-1)) else none
   | _ => none) <|>
  (match diff with
   | .add (.mul p q) (.mul (.add A B) C) =>
       if p = B ∧ q = A then some (A, B, C, .intImm .i32 (-1)) else none
   | _ => none)

/-- `TryComparisonOfProductAndSum` (lines 180-321): with the
product-and-sum extension enabled, simplify `x - y`, match the special
shape, and decide the sign of the reciprocal term from the four factors'
bounds (native `int64` arithmetic, which traps on overflow). -/
def TryComparisonOfProductAndSum (rec : Rec) (c : Ctx) (x y : Expr) :
    Except Trap Nat := do
  if !c.flags.comparisonOfProductAndSum then return kUnknown
  let diff ← rec c (subOp x y)
  match matchProductSum diff with
  | none => return kUnknown
  | some (A, B, C, D) =>
    let aBound := c.oracle.constIntBound c.actx A
    let bBound := c.oracle.constIntBound c.actx B
    let cBound := c.oracle.constIntBound c.actx C
    let dBound := c.oracle.constIntBound c.actx D
    let negate := fun (bd : ConstIntBound) => ConstIntBound.mk (-bd.max_value) (-bd.min_value)
    let isNegative := fun (bd : ConstIntBound) => bd.max_value < 0
    let isPositive := fun (bd : ConstIntBound) => bd.min_value > 0
    let isUpperBound := isNegative dBound
    let cBound := if isUpperBound then negate cBound else cBound
    let dBound := if isUpperBound then negate dBound else dBound
    let flipAB := isNegative cBound
    let aBound := if flipAB then negate aBound else aBound
    let bBound := if flipAB then negate bBound else bBound
    let cBound := if flipAB then negate cBound else cBound
    let allTermsPositive :=
      isPositive aBound ∧ isPositive bBound ∧ isPositive cBound ∧ isPositive dBound
    if ¬allTermsPositive then return kUnknown
    let reciprocalTermIsPositive ← do
      if dBound.max_value = kPosInf then pure false
      else do
        let m1 ← i64MulChk (min aBound.max_value bBound.max_value) dBound.max_value
        if m1 ≤ cBound.min_value then pure true
        else if aBound.max_value ≠ kPosInf ∧ bBound.max_value ≠ kPosInf then do
          let ab ← i64MulChk aBound.max_value bBound.max_value
          let abd ← i64MulChk ab dBound.max_value
          let apb ← i64AddChk aBound.max_value bBound.max_value
          let rhs ← i64MulChk cBound.min_value apb
          pure (decide (abd < rhs))
        else pure false
    if ¬reciprocalTermIsPositive then return kUnknown
    if isUpperBound then return kLT else return kGT

/-- The `CompareResult` intersection `lhs & rhs` (line 146): bitwise AND on
the three-bit comparison lattice, written as the explicit table over the
eight values either operand can take (out-of-range operands, which the
program never produces, fall back to the generic bitwise AND). -/
def crIntersect : Nat → Nat → Nat
  | 0, 0 => 0
  | 0, 1 => 0
  | 0, 2 => 0
  | 0, 3 => 0
  | 0, 4 => 0
  | 0, 5 => 0
  | 0, 6 => 0
  | 0, 7 => 0
  | 1, 0 => 0
  | 1, 1 => 1
  | 1, 2 => 0
  | 1, 3 => 1
  | 1, 4 => 0
  | 1, 5 => 1
  | 1, 6 => 0
  | 1, 7 => 1
  | 2, 0 => 0
  | 2, 1 => 0
  | 2, 2 => 2
  | 2, 3 => 2
  | 2, 4 => 0
  | 2, 5 => 0
  | 2, 6 => 2
  | 2, 7 => 2
  | 3, 0 => 0
  | 3, 1 => 1
  | 3, 2 => 2
  | 3, 3 => 3
  | 3, 4 => 0
  | 3, 5 => 1
  | 3, 6 => 2
  | 3, 7 => 3
  | 4, 0 => 0
  | 4, 1 => 0
  | 4, 2 => 0
  | 4, 3 => 0
  | 4, 4 => 4
  | 4, 5 => 4
  | 4, 6 => 4
  | 4, 7 => 4
  | 5, 0 => 0
  | 5, 1 => 1
  | 5, 2 => 0
  | 5, 3 => 1
  | 5, 4 => 4
  | 5, 5 => 5
  | 5, 6 => 4
  | 5, 7 => 5
  | 6, 0 => 0
  | 6, 1 => 0
  | 6, 2 => 2
  | 6, 3 => 2
  | 6, 4 => 4
  | 6, 5 => 4
  | 6, 6 => 6
  | 6, 7 => 6
  | 7, 0 => 0
  | 7, 1 => 1
  | 7, 2 => 2
  | 7, 3 => 3
  | 7, 4 => 4
  | 7, 5 => 5
  | 7, 6 => 6
  | 7, 7 => 7
  | a, b => Nat.land a b

/-- `TryCompare(x, y)` (lines 150-167): bound comparison of the difference,
then the transitive oracle, then the product-and-sum special case, each
layer intersected into the bitmask lattice and stopping once the result is
`EQ`, `LT` or `GT`. -/
def TryCompare (rec : Rec) (c : Ctx) (x y : Expr) : Except Trap Nat := do
  let isFinished := fun (o : Nat) => o = kEQ ∨ o = kLT ∨ o = kGT
  let output := crIntersect kUnknown (← TryCompareLit rec c (subOp x y) 0)
  if isFinished output then return output
  let output := crIntersect output (TryCompareUsingKnownInequalities c x y)
  if isFinished output then return output
  return crIntersect output (← TryComparisonOfProductAndSum rec c x y)

/-- `ApplyRewriteRules(Not)` (lines 1993-2011): negation pushdown rules (the
argument is the freshly constructed `Not` node; anything else passes
through). -/
def ApplyRewriteRulesNot (rec : Rec) (c : Ctx) (n : Expr) : Except Trap Expr := do
  -- vector rule (line 1998): vacuous, no vector dtypes in the embedding
  match n with
  | .not (.not x) => return x
  | .not (.le x y) => return ltOp y x
  | .not (.ge x y) => return ltOp x y
  | .not (.lt x y) => return leOp y x
  | .not (.gt x y) => return leOp x y
  | .not (.eq x y) => return neOp x y
  | .not (.ne x y) => return eqOp x y
  | .not (.or x y) => rec c (andOp (notOp x) (notOp y))
  | .not (.and x y) => rec c (orOp (notOp x) (notOp y))
  | _ => return n

/-- `VisitExpr_(SelectNode)` (lines 2260-2268): with simplified children,
`select(x, y, y) -> y`; no guard on the condition and no datatype gate. -/
def VisitSelect (co t f : Expr) : Except Trap Expr := do
  let ret := Expr.select co t f
  if t = f then return t
  return ret

/-- `VisitExpr_(VarNode)` (lines 2350-2363): boolean variables consult the
literal constraint stack; then the substitution map applies. -/
def VisitVar (c : Ctx) (n : String) (d : DT) : Except Trap Expr := do
  let v := Expr.varE n d
  if d = .b then
    if let some m := TryMatchLiteralConstraint c.stack v then return m
  match varLookup c.varMap n d with
  | some e => return e
  | none => return v

/-- `VisitExpr_(CastNode)` (lines 2365-2369): rebuild through the `cast`
helper. -/
def VisitCast (d : DT) (a : Expr) : Except Trap Expr := do
  return castOp d a

/-- `ApplyRewriteRules(EQ)` (lines 1682-1722): comparison via `TryCompare`,
then constant canonicalization, `x * y == 0` splitting and reflexivity; on
the non-index path reflexivity is guarded by the side-effect check. -/
def ApplyRewriteRulesEQ (rec : Rec) (c : Ctx) (a b : Expr) : Except Trap Expr := do
  -- vector rule (line 1692): vacuous, no vector dtypes in the embedding
  if IsIndexType a.dtype then
    let result ← TryCompare rec c a b
    if result = kEQ then return boolImm true
    if result = kNE ∨ result = kGT ∨ result = kLT then return boolImm false
    -- c1 == x  ->  x == c1
    if let .intImm d1 v1 := a then return eqOp b (.intImm d1 v1)
    -- x - c1 == c2  ->  x == c2 + c1
    if let .sub x (.intImm d1 v1) := a then
      if let .intImm d2 v2 := b then
        return eqOp x (addOp (.intImm d2 v2) (.intImm d1 v1))
    -- c1 - x == c2  ->  x == c1 - c2
    if let .sub (.intImm d1 v1) x := a then
      if let .intImm d2 v2 := b then
        return eqOp x (subOp (.intImm d1 v1) (.intImm d2 v2))
    -- x + c1 == c2  ->  x == c2 - c1
    if let .add x (.intImm d1 v1) := a then
      if let .intImm d2 v2 := b then
        return eqOp x (subOp (.intImm d2 v2) (.intImm d1 v1))
    -- x * y == 0  ->  x == 0 || y == 0   (recursive)
    if let .mul x y := a then
      if let .intImm _ 0 := b then
        return ← rec c (orOp (eqOp x (ZeroWithTypeLike x)) (eqOp y (ZeroWithTypeLike y)))
    -- x == x  ->  true
    if a = b then return boolImm true
    return .eq a b
  else
    -- x == x  ->  true, guarded by the side effect of x (lines 1710-1720)
    if a = b ∧ SideEffect a ≤ 1 then return boolImm true
    return .eq a b

/-- `ApplyRewriteRules(LT)` (lines 1822-1983): the full `LT` rule table --
comparison, cancellation, constant scaling through truncated/floored
division, min/max splitting, constant-offset merging and the modular-gcd
division of both sides. -/
def ApplyRewriteRulesLT (rec : Rec) (c : Ctx) (a b : Expr) : Except Trap Expr := do
  -- vector rules (lines 1830-1833): vacuous, no vector dtypes in the embedding
  if IsIndexType a.dtype then
    let result ← TryCompare rec c a b
    if result = kLT then return boolImm true
    if result = kEQ ∨ result = kGT ∨ result = kGE then return boolImm false
    -- x + y < x + z (four arrangements)  ->  y < z
    if let .add a1 a2 := a then
      if let .add b1 b2 := b then
        if a1 = b1 then return ltOp a2 b2
        if a1 = b2 then return ltOp a2 b1
        if a2 = b1 then return ltOp a1 b2
        if a2 = b2 then return ltOp a1 b1
    -- y - x < z - x  ->  y < z ; x - y < x - z  ->  z < y
    if let .sub a1 a2 := a then
      if let .sub b1 b2 := b then
        if a2 = b2 then return ltOp a1 b1
        if a1 = b1 then return ltOp b2 a2
    -- x < x + z ; x < z + x  ->  0 < z
    if let .add b1 b2 := b then
      if b1 = a then return ltOp (ZeroWithTypeLike b2) b2
      if b2 = a then return ltOp (ZeroWithTypeLike b1) b1
    -- x < x - z  ->  z < 0
    if let .sub b1 z := b then
      if b1 = a then return ltOp z (ZeroWithTypeLike z)
    -- x * c1 < y * c1
    if let .mul x (.intImm d1 v1) := a then
      if let .mul y (.intImm d2 v2) := b then
        if (Expr.intImm d1 v1) = .intImm d2 v2 then
          if v1 > 0 then return ltOp x y
          if v1 < 0 then return ltOp y x
    -- x * c2 < c1 (four sign cases, truncated division)
    if let .mul x (.intImm d2 c2v) := a then
      if let .intImm d1 c1v := b then
        let c1e := Expr.intImm d1 c1v
        let c2e := Expr.intImm d2 c2v
        let one := Expr.intImm d1 1
        if c1v > 0 ∧ c2v > 0 then
          return ltOp x (addOp (truncdivOp (subOp c1e one) c2e) one)
        if c1v ≤ 0 ∧ c2v > 0 then return ltOp x (truncdivOp c1e c2e)
        if c1v > 0 ∧ c2v < 0 then
          return ltOp (subOp (truncdivOp (subOp c1e one) c2e) one) x
        if c1v ≤ 0 ∧ c2v < 0 then return ltOp (truncdivOp c1e c2e) x
    -- c1 < x * c2 (four sign cases)
    if let .intImm d1 c1v := a then
      if let .mul x (.intImm d2 c2v) := b then
        let c1e := Expr.intImm d1 c1v
        let c2e := Expr.intImm d2 c2v
        let one := Expr.intImm d1 1
        if c1v < 0 ∧ c2v > 0 then
          return ltOp (subOp (truncdivOp (addOp c1e one) c2e) one) x
        if c1v ≥ 0 ∧ c2v > 0 then return ltOp (truncdivOp c1e c2e) x
        if c1v < 0 ∧ c2v < 0 then
          return ltOp x (addOp (truncdivOp (addOp c1e one) c2e) one)
        if c1v ≥ 0 ∧ c2v < 0 then return ltOp x (truncdivOp c1e c2e)
    -- truncdiv(x, c1) < c2
    if let .div x (.intImm d1 c1v) := a then
      if let .intImm d2 c2v := b then
        let c1e := Expr.intImm d1 c1v
        let c2e := Expr.intImm d2 c2v
        let one := Expr.intImm d2 1
        if c1v > 0 ∧ c2v > 0 then return ltOp x (mulOp c1e c2e)
        if c1v > 0 ∧ c2v ≤ 0 then
          return ltOp x (addOp (mulOp c1e (subOp c2e one)) one)
    -- c1 < truncdiv(x, c2)
    if let .intImm d1 c1v := a then
      if let .div x (.intImm d2 c2v) := b then
        let c1e := Expr.intImm d1 c1v
        let c2e := Expr.intImm d2 c2v
        let one := Expr.intImm d1 1
        if c1v ≥ 0 ∧ c2v > 0 then
          return ltOp (subOp (mulOp (addOp c1e one) c2e) one) x
        if c1v < 0 ∧ c2v > 0 then return ltOp (mulOp c1e c2e) x
    -- truncdiv(x, c1) * c1 < x / x + y / x - y
    if let .mul (.div x c1a) c1b := a then
      if c1b = c1a then
        if let .intImm _ c1v := c1a then
          if c1v > 0 then
            if b = x then return ltOp (ZeroWithTypeLike x) (truncmodOp x c1a)
            if let .add x2 y := b then
              if x2 = x then
                return ltOp (ZeroWithTypeLike x) (addOp (truncmodOp x c1a) y)
            if let .sub x2 y := b then
              if x2 = x then return ltOp y (truncmodOp x c1a)
    -- truncdiv(x + c2, c1) * c1 < x / x + y / x - y
    if let .mul (.div (.add x (.intImm dc2 c2v)) c1a) c1b := a then
      if c1b = c1a then
        if let .intImm _ c1v := c1a then
          if c1v > 0 then
            let c2e := Expr.intImm dc2 c2v
            if b = x then return ltOp c2e (truncmodOp (addOp x c2e) c1a)
            if let .add x2 y := b then
              if x2 = x then
                return ltOp c2e (addOp (truncmodOp (addOp x c2e) c1a) y)
            if let .sub x2 y := b then
              if x2 = x then
                return ltOp y (addOp (truncmodOp (addOp x c2e) c1a)
                  (subOp (ZeroWithTypeLike c2e) c2e))
    -- floordiv(x, c1) < c2  ->  x < c1 * c2
    if let .floordiv x (.intImm d1 c1v) := a then
      if let .intImm d2 c2v := b then
        if c1v > 0 then return ltOp x (mulOp (.intImm d1 c1v) (.intImm d2 c2v))
    -- c1 < floordiv(x, c2)  ->  (c1 + 1) * c2 - 1 < x
    if let .intImm d1 c1v := a then
      if let .floordiv x (.intImm d2 c2v) := b then
        let one := Expr.intImm d1 1
        if c2v > 0 then
          return ltOp
            (subOp (mulOp (addOp (.intImm d1 c1v) one) (.intImm d2 c2v)) one) x
    -- floordiv(x, c1) * c1 < x / x + y / x - y
    if let .mul (.floordiv x c1a) c1b := a then
      if c1b = c1a then
        if let .intImm _ c1v := c1a then
          if c1v > 0 then
            if b = x then return ltOp (ZeroWithTypeLike x) (floormodOp x c1a)
            if let .add x2 y := b then
              if x2 = x then
                return ltOp (ZeroWithTypeLike x) (addOp (floormodOp x c1a) y)
            if let .sub x2 y := b then
              if x2 = x then return ltOp y (floormodOp x c1a)
    -- floordiv(x + c2, c1) * c1 < x / x + y / x - y
    if let .mul (.floordiv (.add x (.intImm dc2 c2v)) c1a) c1b := a then
      if c1b = c1a then
        if let .intImm _ c1v := c1a then
          if c1v > 0 then
            let c2e := Expr.intImm dc2 c2v
            if b = x then return ltOp c2e (floormodOp (addOp x c2e) c1a)
            if let .add x2 y := b then
              if x2 = x then
                return ltOp c2e (addOp (floormodOp (addOp x c2e) c1a) y)
            if let .sub x2 y := b then
              if x2 = x then
                return ltOp y (addOp (floormodOp (addOp x c2e) c1a)
                  (subOp (ZeroWithTypeLike c2e) c2e))
    -- canonicalization over min/max (recursive)
    if let .minE x y := a then return ← rec c (orOp (ltOp x b) (ltOp y b))
    if let .maxE x y := a then return ← rec c (andOp (ltOp x b) (ltOp y b))
    if let .minE x y := b then return ← rec c (andOp (ltOp a x) (ltOp a y))
    if let .maxE x y := b then return ← rec c (orOp (ltOp a x) (ltOp a y))
    -- c1 < x + c2 | c1 - x < c2  ->  c1 - c2 < x   (recursive)
    if let .intImm d1 c1v := a then
      if let .add x (.intImm d2 c2v) := b then
        return ← rec c (ltOp (subOp (.intImm d1 c1v) (.intImm d2 c2v)) x)
    if let .sub (.intImm d1 c1v) x := a then
      if let .intImm d2 c2v := b then
        return ← rec c (ltOp (subOp (.intImm d1 c1v) (.intImm d2 c2v)) x)
    -- c1 < c2 - x | x + c1 < c2  ->  x < c2 - c1   (recursive)
    if let .intImm d1 c1v := a then
      if let .sub (.intImm d2 c2v) x := b then
        return ← rec c (ltOp x (subOp (.intImm d2 c2v) (.intImm d1 c1v)))
    if let .add x (.intImm d1 c1v) := a then
      if let .intImm d2 c2v := b then
        return ← rec c (ltOp x (subOp (.intImm d2 c2v) (.intImm d1 c1v)))
    -- c1 < x - c2  ->  c1 + c2 < x   (recursive)
    if let .intImm d1 c1v := a then
      if let .sub x (.intImm d2 c2v) := b then
        return ← rec c (ltOp (addOp (.intImm d1 c1v) (.intImm d2 c2v)) x)
    -- x - c2 < c1  ->  x < c1 + c2   (recursive)
    if let .sub x (.intImm d2 c2v) := a then
      if let .intImm d1 c1v := b then
        return ← rec c (ltOp x (addOp (.intImm d1 c1v) (.intImm d2 c2v)))
    -- x < c1 - y  ->  x + y < c1   (recursive)
    if let .sub (.intImm d1 c1v) y := b then
      return ← rec c (ltOp (addOp a y) (.intImm d1 c1v))
    -- c1 - y < x  ->  c1 < x + y   (recursive)
    if let .sub (.intImm d1 c1v) y := a then
      return ← rec c (ltOp (.intImm d1 c1v) (addOp b y))
    -- x < c1 + y  ->  x - y < c1   (recursive)
    if let .add (.intImm d1 c1v) y := b then
      return ← rec c (ltOp (subOp a y) (.intImm d1 c1v))
    -- c1 + y < x  ->  c1 < x - y   (recursive)
    if let .add (.intImm d1 c1v) y := a then
      return ← rec c (ltOp (.intImm d1 c1v) (subOp b y))
    -- merge the constant offsets of both sides (lines 1947-1969)
    let (lhs, lhsOffset) := ExtractConstantOffset a
    let (rhs, rhsOffset) := ExtractConstantOffset b
    if ¬(lhsOffset = 0 ∧ rhsOffset = 0) then
      let diff := rhsOffset - lhsOffset
      if diff = 0 then return ← rec c (ltOp lhs rhs)
      if diff = 1 then return ← rec c (leOp lhs rhs)
      if diff < 0 ∧ rhsOffset ≠ 0 then
        return ← rec c (ltOp (addOp lhs (.intImm lhs.dtype (-diff))) rhs)
      if diff > 0 ∧ lhsOffset ≠ 0 then
        return ← rec c (ltOp lhs (addOp rhs (.intImm rhs.dtype diff)))
    -- divide both sides by the gcd of their modular sets (lines 1971-1980)
    let ma := c.oracle.modularSet c.actx a
    let mb := c.oracle.modularSet c.actx b
    let commonFactor :=
      ZeroAwareGCD (ZeroAwareGCD ma.base ma.coeff) (ZeroAwareGCD mb.base mb.coeff)
    if commonFactor > 1 then
      return ← rec c (ltOp (floordivOp a (.intImm a.dtype commonFactor))
        (floordivOp b (.intImm b.dtype commonFactor)))
  return .lt a b

/-- `VisitExpr_(EQNode)` (lines 1668-1680). -/
def VisitEQ (rec : Rec) (c : Ctx) (a b : Expr) : Except Trap Expr := do
  let ret := Expr.eq a b
  if let some cf := TryConstFold2 .eq a b then return cf
  if let some m := TryMatchLiteralConstraint c.stack ret then return m
  ApplyRewriteRulesEQ rec c a b

/-- `VisitExpr_(NENode)` (lines 1724-1758): decide through `TryCompare`,
reduce `GE`/`LE` knowledge to a strict comparison, else rewrite as the
negated equality. -/
def VisitNE (rec : Rec) (c : Ctx) (a b : Expr) : Except Trap Expr := do
  let ret := Expr.ne a b
  if let some cf := TryConstFold2 .ne a b then return cf
  if let some m := TryMatchLiteralConstraint c.stack ret then return m
  if IsIndexType a.dtype then
    let result ← TryCompare rec c a b
    if result = kNE ∨ result = kGT ∨ result = kLT then return boolImm true
    if result = kEQ then return boolImm false
    if result = kGE then return ← ApplyRewriteRulesLT rec c b a
    if result = kLE then return ← ApplyRewriteRulesLT rec c a b
  ApplyRewriteRulesNot rec c (.not (← ApplyRewriteRulesEQ rec c a b))

/-- `VisitExpr_(LENode)` (lines 1760-1802): rewrite as `!(b < a)` first
(preserving the ceildiv-producing rewrites), then decide a surviving `LE`
through `TryCompare`. -/
def VisitLE (rec : Rec) (c : Ctx) (a b : Expr) : Except Trap Expr := do
  let ret := Expr.le a b
  if let some cf := TryConstFold2 .le a b then return cf
  if let some m := TryMatchLiteralConstraint c.stack ret then return m
  let ret ← ApplyRewriteRulesNot rec c (.not (← ApplyRewriteRulesLT rec c b a))
  if let .le a2 b2 := ret then
    if IsIndexType a2.dtype then
      let result ← TryCompare rec c a2 b2
      if result = kLE ∨ result = kLT ∨ result = kEQ then return boolImm true
      if result = kGT then return boolImm false
      if result = kNE then return ← ApplyRewriteRulesLT rec c a2 b2
      if result = kGE then return ← ApplyRewriteRulesEQ rec c a2 b2
  return ret

/-- `VisitExpr_(LTNode)` (lines 1812-1820). -/
def VisitLT (rec : Rec) (c : Ctx) (a b : Expr) : Except Trap Expr := do
  let ret := Expr.lt a b
  if let some cf := TryConstFold2 .lt a b then return cf
  if let some m := TryMatchLiteralConstraint c.stack ret then return m
  ApplyRewriteRulesLT rec c a b

/-- `VisitExpr_(NotNode)` (lines 1985-1991). -/
def VisitNot (rec : Rec) (c : Ctx) (a : Expr) : Except Trap Expr := do
  let ret := Expr.not a
  if let some cf := TryConstFoldNot a then return cf
  if let some m := TryMatchLiteralConstraint c.stack ret then return m
  ApplyRewriteRulesNot rec c ret

/-- `VisitExpr_(AddNode)` (lines 385-497): the `Add` rule table over already
simplified children `a` and `b`. -/
def VisitAdd (rec : Rec) (c : Ctx) (a b : Expr) : Except Trap Expr := do
  let ret := Expr.add a b
  if let some cf := TryConstFold2 .add a b then return cf
  -- vector rules (lines 397-404): vacuous, no vector dtypes in the embedding
  if IsIndexType ret.dtype then
    -- (x - y) + y -> x
    if let .sub x y := a then
      if y = b then return x
    -- x + (y - x) -> y
    if let .sub y x := b then
      if x = a then return y
    -- (x - y) + (y - z) -> x - z ; (x - y) + (z - x) -> z - y
    if let .sub x y := a then
      if let .sub p q := b then
        if p = y then return subOp x q
        if q = x then return subOp p y
    -- min(x, y - z) + z -> min(x + z, y) and the three mirrored forms
    if let .minE x (.sub y z) := a then
      if z = b then return minOp (addOp x b) y
    if let .minE (.sub x z) y := a then
      if z = b then return minOp x (addOp y b)
    if let .maxE x (.sub y z) := a then
      if z = b then return maxOp (addOp x b) y
    if let .maxE (.sub x z) y := a then
      if z = b then return maxOp x (addOp y b)
    -- min(x, y + z * c1) + z * c2 -> min(x + z * c2, y) if c1 = -c2 (4 forms)
    if let .mul z2 (.intImm _ c2v) := b then
      if let .minE x (.add y (.mul z (.intImm _ c1v))) := a then
        if z = z2 ∧ c1v = -c2v then return minOp (addOp x b) y
      if let .maxE x (.add y (.mul z (.intImm _ c1v))) := a then
        if z = z2 ∧ c1v = -c2v then return maxOp (addOp x b) y
      if let .minE (.add y (.mul z (.intImm _ c1v))) x := a then
        if z = z2 ∧ c1v = -c2v then return minOp (addOp x b) y
      if let .maxE (.add y (.mul z (.intImm _ c1v))) x := a then
        if z = z2 ∧ c1v = -c2v then return maxOp (addOp x b) y
    -- max(x, y) + min(x, y) (and mirrors) -> x + y
    if let .maxE x y := a then
      if let .minE p q := b then
        if p = x ∧ q = y then return addOp x y
        if p = y ∧ q = x then return addOp x y
    if let .minE x y := a then
      if let .maxE p q := b then
        if p = x ∧ q = y then return addOp x y
        if p = y ∧ q = x then return addOp x y
    -- min/max with constant offsets vs a constant, and (x + c1) + c2
    if let .intImm _ c2v := b then
      if let .minE x (.add y (.intImm _ c1v)) := a then
        if c1v = -c2v then return minOp (addOp x b) y
      if let .minE (.add x (.intImm _ c1v)) y := a then
        if c1v = -c2v then return minOp x (addOp y b)
      if let .maxE x (.add y (.intImm _ c1v)) := a then
        if c1v = -c2v then return maxOp (addOp x b) y
      if let .maxE (.add x (.intImm _ c1v)) y := a then
        if c1v = -c2v then return maxOp x (addOp y b)
      -- (x + c1) + c2 -> x + (c1 + c2)
      if let .add x (.intImm d1 c1v) := a then
        return addOp x (addOp (.intImm d1 c1v) b)
    -- x + x -> x * 2
    if a = b then return mulOp a (.intImm a.dtype 2)
    -- x*y + x | y*x + x | x + y*x | x + x*y -> (y + 1) * x
    if let .mul f1 f2 := a then
      if f1 = b then return mulOp (addOp f2 (.intImm f2.dtype 1)) f1
      if f2 = b then return mulOp (addOp f1 (.intImm f1.dtype 1)) f2
    if let .mul f1 f2 := b then
      if f2 = a then return mulOp (addOp f1 (.intImm f1.dtype 1)) f2
      if f1 = a then return mulOp (addOp f2 (.intImm f2.dtype 1)) f1
    -- x*y + x*z (shared factor in any position) -> (y + z) * x
    if let .mul a1 a2 := a then
      if let .mul b1 b2 := b then
        if a1 = b1 then return mulOp (addOp a2 b2) a1
        if a2 = b1 then return mulOp (addOp a1 b2) a2
        if a1 = b2 then return mulOp (addOp a2 b1) a1
        if a2 = b2 then return mulOp (addOp a1 b1) a2
    -- truncdiv(x, c1) * c1 + truncmod(x, c1) -> x
    if let .mul (.div x c1a) c1b := a then
      if c1b = c1a then
        if let .intImm _ _ := c1a then
          if let .mod x2 c1c := b then
            if x2 = x ∧ c1c = c1a then return x
    -- floordiv(x, y) * y + floormod(x, y) (4 arrangements) -> x
    if let .mul (.floordiv x y) y2 := a then
      if y2 = y then
        if let .floormod x2 y3 := b then
          if x2 = x ∧ y3 = y then return x
    if let .mul y (.floordiv x y2) := a then
      if y2 = y then
        if let .floormod x2 y3 := b then
          if x2 = x ∧ y3 = y then return x
    if let .floormod x y := a then
      if let .mul (.floordiv x2 y2) y3 := b then
        if x2 = x ∧ y2 = y ∧ y3 = y then return x
    if let .floormod x y := a then
      if let .mul y2 (.floordiv x2 y3) := b then
        if x2 = x ∧ y2 = y ∧ y3 = y then return x
    -- floordiv(floormod(x, c2) + c1, c2) + floordiv(x, c2) -> floordiv(x + c1, c2)
    if let .floordiv (.add (.floormod x c2a) (.intImm d1 c1v)) c2b := a then
      if c2b = c2a then
        if let .floordiv x2 c2c := b then
          if x2 = x ∧ c2c = c2a then
            if let .intImm _ c2v := c2a then
              if c2v > 0 then return floordivOp (addOp x (.intImm d1 c1v)) c2a
    -- floordiv(x, 2) + floormod(x, 2) -> floordiv(x + 1, 2)   (recursive)
    if let .floordiv x (.intImm d2 2) := a then
      if let .floormod x2 (.intImm _ 2) := b then
        if x2 = x then
          return ← rec c (floordivOp (addOp x (.intImm x.dtype 1)) (.intImm d2 2))
    -- floormod(x + c1, 2) + floormod(x, 2) -> 1 if c1 is odd (and mirrored)
    if let .floormod (.add x (.intImm _ c1v)) (.intImm _ 2) := a then
      if let .floormod x2 (.intImm _ 2) := b then
        if x2 = x ∧ fmodI c1v 2 = 1 then return OneWithTypeLike x
    if let .floormod x (.intImm _ 2) := a then
      if let .floormod (.add x2 (.intImm _ c1v)) (.intImm _ 2) := b then
        if x2 = x ∧ fmodI c1v 2 = 1 then return OneWithTypeLike x
    -- x + (c1 - y) | (c1 - y) + x -> (x - y) + c1   (recursive)
    if let .sub (.intImm d1 c1v) y := b then
      return ← rec c (addOp (subOp a y) (.intImm d1 c1v))
    if let .sub (.intImm d1 c1v) y := a then
      return ← rec c (addOp (subOp b y) (.intImm d1 c1v))
    -- (x + c1) + y | x + (c1 + y) | x + (y + c1) -> (x + y) + c1   (recursive)
    if let .add x (.intImm d1 c1v) := a then
      return ← rec c (addOp (addOp x b) (.intImm d1 c1v))
    if let .add (.intImm d1 c1v) y := b then
      return ← rec c (addOp (addOp a y) (.intImm d1 c1v))
    if let .add y (.intImm d1 c1v) := b then
      return ← rec c (addOp (addOp a y) (.intImm d1 c1v))
    -- x + max(y, z) -> max(y, z) + x ; x + min(y, z) -> min(y, z) + x
    if let .maxE _ _ := b then return ← rec c (addOp b a)
    if let .minE _ _ := b then return ← rec c (addOp b a)
    -- truncmod(y, c1) + x * c1 -> x * c1 + truncmod(y, c1)   (recursive)
    if let .mod _ c1a := a then
      if let .intImm _ _ := c1a then
        if let .mul _ c1b := b then
          if c1b = c1a then return ← rec c (addOp b a)
    -- floormod(y, c1) + x * c1 -> x * c1 + floormod(y, c1)   (recursive)
    if let .floormod _ c1a := a then
      if let .intImm _ _ := c1a then
        if let .mul _ c1b := b then
          if c1b = c1a then return ← rec c (addOp b a)
  -- select(x, b1, b2) + select(x, s1, s2) -> select(x, b1 + s1, b2 + s2)
  if let .select x t1 f1 := a then
    if let .select x2 t2 f2 := b then
      if x2 = x then return .select x (addOp t1 t2) (addOp f1 f2)
  return ret

/-- `VisitExpr_(SubNode)` (lines 536-723): the `Sub` rule table over already
simplified children. -/
def VisitSub (rec : Rec) (c : Ctx) (a b : Expr) : Except Trap Expr := do
  let ret := Expr.sub a b
  if let some cf := TryConstFold2 .sub a b then return cf
  -- vector rules (lines 548-553): vacuous, no vector dtypes in the embedding
  if IsIndexType ret.dtype then
    -- (x + y) - y | (y + x) - y -> x
    if let .add a1 a2 := a then
      if a2 = b then return a1
      if a1 = b then return a2
    -- x - (y + x) | x - (x + y) -> 0 - y
    if let .add b1 b2 := b then
      if b2 = a then return subOp (ZeroWithTypeLike b1) b1
      if b1 = a then return subOp (ZeroWithTypeLike b2) b2
    -- min(x, y) - y | x - max(y, x) -> min(x - y, 0)
    if let .minE x y := a then
      if y = b then return minOp (subOp x y) (ZeroWithTypeLike x)
    if let .maxE y x := b then
      if x = a then return minOp (subOp a y) (ZeroWithTypeLike a)
    -- x - max(x, y) | min(y, x) - y -> min(0, x - y)
    if let .maxE x y := b then
      if x = a then return minOp (ZeroWithTypeLike a) (subOp a y)
    if let .minE y x := a then
      if y = b then return minOp (ZeroWithTypeLike x) (subOp x y)
    -- max(x, y) - y | x - min(y, x) -> max(x - y, 0)
    if let .maxE x y := a then
      if y = b then return maxOp (subOp x y) (ZeroWithTypeLike x)
    if let .minE y x := b then
      if x = a then return maxOp (subOp a y) (ZeroWithTypeLike a)
    -- x - min(x, y) | max(y, x) - y -> max(0, x - y)
    if let .minE x y := b then
      if x = a then return maxOp (ZeroWithTypeLike a) (subOp a y)
    if let .maxE y x := a then
      if y = b then return maxOp (ZeroWithTypeLike x) (subOp x y)
    -- x - x -> 0
    if a = b then return ZeroWithTypeLike a
    -- x*y - x | y*x - x -> (y - 1) * x
    if let .mul f1 f2 := a then
      if f1 = b then return mulOp (subOp f2 (.intImm f2.dtype 1)) f1
      if f2 = b then return mulOp (subOp f1 (.intImm f1.dtype 1)) f2
    -- x - y*x | x - x*y -> (1 - y) * x
    if let .mul f1 f2 := b then
      if f2 = a then return mulOp (subOp (.intImm f1.dtype 1) f1) f2
      if f1 = a then return mulOp (subOp (.intImm f2.dtype 1) f2) f1
    -- x*y - x*z (shared factor in any position) -> (y - z) * x
    if let .mul a1 a2 := a then
      if let .mul b1 b2 := b then
        if a1 = b1 then return mulOp (subOp a2 b2) a1
        if a2 = b1 then return mulOp (subOp a1 b2) a2
        if a1 = b2 then return mulOp (subOp a2 b1) a1
        if a2 = b2 then return mulOp (subOp a1 b1) a2
    -- (x + c1) - c2 -> x + (c1 - c2)
    if let .add x (.intImm d1 c1v) := a then
      if let .intImm d2 c2v := b then
        return addOp x (subOp (.intImm d1 c1v) (.intImm d2 c2v))
    -- (c1 - x) - (c2 - y) -> (y - x) + (c1 - c2)
    if let .sub (.intImm d1 c1v) x := a then
      if let .sub (.intImm d2 c2v) y := b then
        return addOp (subOp y x) (subOp (.intImm d1 c1v) (.intImm d2 c2v))
    -- (x + y) - (x + z) (shared addend in any position) -> y - z
    if let .add a1 a2 := a then
      if let .add b1 b2 := b then
        if a1 = b1 then return subOp a2 b2
        if a1 = b2 then return subOp a2 b1
        if a2 = b2 then return subOp a1 b1
        if a2 = b1 then return subOp a1 b2
    -- min(x + y, z) - x | min(y + x, z) - x -> min(y, z - x)
    if let .minE (.add p q) z := a then
      if p = b then return minOp q (subOp z b)
      if q = b then return minOp p (subOp z b)
    -- min(z, x + y) - x | min(z, y + x) - x -> min(z - x, y)
    if let .minE z (.add p q) := a then
      if p = b then return minOp (subOp z b) q
      if q = b then return minOp (subOp z b) p
    -- max(x + y, z) - x | max(y + x, z) - x -> max(y, z - x)
    if let .maxE (.add p q) z := a then
      if p = b then return maxOp q (subOp z b)
      if q = b then return maxOp p (subOp z b)
    -- max(z, x + y) - x | max(z, y + x) - x -> max(z - x, y)
    if let .maxE z (.add p q) := a then
      if p = b then return maxOp (subOp z b) q
      if q = b then return maxOp (subOp z b) p
    -- x - min(x + y, z) | x - min(y + x, z) -> max(0 - y, x - z)
    if let .minE (.add p q) z := b then
      if p = a then return maxOp (subOp (ZeroWithTypeLike q) q) (subOp a z)
      if q = a then return maxOp (subOp (ZeroWithTypeLike p) p) (subOp a z)
    -- x - min(z, x + y) | x - min(z, y + x) -> max(x - z, 0 - y)
    if let .minE z (.add p q) := b then
      if p = a then return maxOp (subOp a z) (subOp (ZeroWithTypeLike q) q)
      if q = a then return maxOp (subOp a z) (subOp (ZeroWithTypeLike p) p)
    -- x - max(x + y, z) | x - max(y + x, z) -> min(0 - y, x - z)
    if let .maxE (.add p q) z := b then
      if p = a then return minOp (subOp (ZeroWithTypeLike q) q) (subOp a z)
      if q = a then return minOp (subOp (ZeroWithTypeLike p) p) (subOp a z)
    -- x - max(z, x + y) | x - max(z, y + x) -> min(x - z, 0 - y)
    if let .maxE z (.add p q) := b then
      if p = a then return minOp (subOp a z) (subOp (ZeroWithTypeLike q) q)
      if q = a then return minOp (subOp a z) (subOp (ZeroWithTypeLike p) p)
    -- min(x, y) - min(y, x) -> 0 ; max(x, y) - max(y, x) -> 0
    if let .minE x y := a then
      if let .minE y2 x2 := b then
        if y2 = y ∧ x2 = x then return ZeroWithTypeLike x
    if let .maxE x y := a then
      if let .maxE y2 x2 := b then
        if y2 = y ∧ x2 = x then return ZeroWithTypeLike x
    -- min(b1, b2) - min(s1, s2) -> b1 - s1 when (b1-s1) == (b2-s2) provably
    if let .minE p1 p2 := a then
      if let .minE s1 s2 := b then
        if (← CanProveEqual rec c (subOp (subOp p1 s1) (subOp p2 s2)) 0) then
          return subOp p1 s1
        else if (← CanProveEqual rec c (subOp (subOp p1 s2) (subOp p2 s1)) 0) then
          return subOp p1 s2
    if let .maxE p1 p2 := a then
      if let .maxE s1 s2 := b then
        if (← CanProveEqual rec c (subOp (subOp p1 s1) (subOp p2 s2)) 0) then
          return subOp p1 s1
        else if (← CanProveEqual rec c (subOp (subOp p1 s2) (subOp p2 s1)) 0) then
          return subOp p1 s2
    -- x - truncdiv(x, c1) * c1 -> truncmod(x, c1)
    if let .mul (.div x c1a) c1b := b then
      if c1b = c1a ∧ x = a then
        if let .intImm _ c1v := c1a then
          if c1v ≠ 0 then return truncmodOp a c1a
    -- truncdiv(x, c1) * c1 - x -> 0 - truncmod(x, c1)
    if let .mul (.div x c1a) c1b := a then
      if c1b = c1a ∧ x = b then
        if let .intImm _ c1v := c1a then
          if c1v ≠ 0 then
            return subOp (ZeroWithTypeLike b) (truncmodOp b c1a)
    -- x - truncdiv(x + y, c1) * c1 -> truncmod(x + y, c1) - y
    if let .mul (.div (.add x y) c1a) c1b := b then
      if c1b = c1a ∧ x = a then
        if let .intImm _ c1v := c1a then
          if c1v ≠ 0 then return subOp (truncmodOp (addOp a y) c1a) y
    -- truncdiv(x + y, c1) * c1 - x -> y - truncmod(x + y, c1)
    if let .mul (.div (.add x y) c1a) c1b := a then
      if c1b = c1a ∧ x = b then
        if let .intImm _ c1v := c1a then
          if c1v ≠ 0 then return subOp y (truncmodOp (addOp b y) c1a)
    -- x - truncdiv(x - y, c1) * c1 -> truncmod(x - y, c1) + y
    if let .mul (.div (.sub x y) c1a) c1b := b then
      if c1b = c1a ∧ x = a then
        if let .intImm _ c1v := c1a then
          if c1v ≠ 0 then return addOp (truncmodOp (subOp a y) c1a) y
    -- truncdiv(x - y, c1) * c1 - x -> 0 - truncmod(x - y, c1) - y
    if let .mul (.div (.sub x y) c1a) c1b := a then
      if c1b = c1a ∧ x = b then
        if let .intImm _ c1v := c1a then
          if c1v ≠ 0 then
            return subOp (subOp (ZeroWithTypeLike b) (truncmodOp (subOp b y) c1a)) y
    -- x * c2 - truncdiv(x, c1) * c3 -> truncmod(x, c1) * c2   (c3 = c1 * c2)
    if let .mul x (.intImm d2 c2v) := a then
      if let .mul (.div x2 (.intImm d1 c1v)) (.intImm _ c3v) := b then
        if x2 = x ∧ c1v ≠ 0 ∧ c3v = c1v * c2v then
          return mulOp (truncmodOp x (.intImm d1 c1v)) (.intImm d2 c2v)
    -- truncdiv(x, c1) * c3 - x * c2 -> 0 - truncmod(x, c1) * c2
    if let .mul (.div x (.intImm d1 c1v)) (.intImm _ c3v) := a then
      if let .mul x2 (.intImm d2 c2v) := b then
        if x2 = x ∧ c1v ≠ 0 ∧ c3v = c1v * c2v then
          return subOp (ZeroWithTypeLike x)
            (mulOp (truncmodOp x (.intImm d1 c1v)) (.intImm d2 c2v))
    -- x * c2 - truncdiv(x + y, c1) * c3 -> (truncmod(x + y, c1) - y) * c2
    if let .mul x (.intImm d2 c2v) := a then
      if let .mul (.div (.add x2 y) (.intImm d1 c1v)) (.intImm _ c3v) := b then
        if x2 = x ∧ c1v ≠ 0 ∧ c3v = c1v * c2v then
          return mulOp (subOp (truncmodOp (addOp x y) (.intImm d1 c1v)) y)
            (.intImm d2 c2v)
    -- truncdiv(x + y, c1) * c3 - x * c2 -> (y - truncmod(x + y, c1)) * c2
    if let .mul (.div (.add x y) (.intImm d1 c1v)) (.intImm _ c3v) := a then
      if let .mul x2 (.intImm d2 c2v) := b then
        if x2 = x ∧ c1v ≠ 0 ∧ c3v = c1v * c2v then
          return mulOp (subOp y (truncmodOp (addOp x y) (.intImm d1 c1v)))
            (.intImm d2 c2v)
    -- x * c2 - truncdiv(x - y, c1) * c3 -> (truncmod(x - y, c1) + y) * c2
    if let .mul x (.intImm d2 c2v) := a then
      if let .mul (.div (.sub x2 y) (.intImm d1 c1v)) (.intImm _ c3v) := b then
        if x2 = x ∧ c1v ≠ 0 ∧ c3v = c1v * c2v then
          return mulOp (addOp (truncmodOp (subOp x y) (.intImm d1 c1v)) y)
            (.intImm d2 c2v)
    -- truncdiv(x - y, c1) * c3 - x * c2 -> (0 - truncmod(x - y, c1) - y) * c2
    if let .mul (.div (.sub x y) (.intImm d1 c1v)) (.intImm _ c3v) := a then
      if let .mul x2 (.intImm d2 c2v) := b then
        if x2 = x ∧ c1v ≠ 0 ∧ c3v = c1v * c2v then
          return mulOp
            (subOp (subOp (ZeroWithTypeLike x) (truncmodOp (subOp x y) (.intImm d1 c1v))) y)
            (.intImm d2 c2v)
    -- truncdiv(x + c1, c3) - truncdiv(x + c2, c3) (guarded, lines 639-642)
    if let .div (.add x (.intImm d1 c1v)) (.intImm d3 c3v) := a then
      if let .div (.add x2 (.intImm d2 c2v)) (.intImm _ c3v2) := b then
        if x2 = x ∧ c3v2 = c3v then
          if CanProveGreaterEqual c x (-c2v) ∧ c1v ≥ c2v ∧ c3v > 0 then
            return truncdivOp
              (addOp (truncmodOp (addOp x (floormodOp (.intImm d2 c2v) (.intImm d3 c3v)))
                  (.intImm d3 c3v))
                (subOp (.intImm d1 c1v) (.intImm d2 c2v)))
              (.intImm d3 c3v)
    -- truncdiv(x + c1, c3) - truncdiv(x, c3) (lines 643-645)
    if let .div (.add x (.intImm d1 c1v)) (.intImm d3 c3v) := a then
      if let .div x2 (.intImm _ c3v2) := b then
        if x2 = x ∧ c3v2 = c3v then
          if CanProveGreaterEqual c x 0 ∧ c1v ≥ 0 ∧ c3v > 0 then
            return truncdivOp (addOp (truncmodOp x (.intImm d3 c3v)) (.intImm d1 c1v))
              (.intImm d3 c3v)
    -- x - floordiv(x, c1) * c1 -> floormod(x, c1)
    if let .mul (.floordiv x c1a) c1b := b then
      if c1b = c1a ∧ x = a then
        if let .intImm _ c1v := c1a then
          if c1v ≠ 0 then return floormodOp a c1a
    -- floordiv(x, c1) * c1 - x -> 0 - floormod(x, c1)
    if let .mul (.floordiv x c1a) c1b := a then
      if c1b = c1a ∧ x = b then
        if let .intImm _ c1v := c1a then
          if c1v ≠ 0 then
            return subOp (ZeroWithTypeLike b) (floormodOp b c1a)
    -- x - floordiv(x + y, c1) * c1 -> floormod(x + y, c1) - y
    if let .mul (.floordiv (.add x y) c1a) c1b := b then
      if c1b = c1a ∧ x = a then
        if let .intImm _ c1v := c1a then
          if c1v ≠ 0 then return subOp (floormodOp (addOp a y) c1a) y
    -- floordiv(x + y, c1) * c1 - x -> y - floormod(x + y, c1)
    if let .mul (.floordiv (.add x y) c1a) c1b := a then
      if c1b = c1a ∧ x = b then
        if let .intImm _ c1v := c1a then
          if c1v ≠ 0 then return subOp y (floormodOp (addOp b y) c1a)
    -- x - floordiv(x - y, c1) * c1 -> floormod(x - y, c1) + y
    if let .mul (.floordiv (.sub x y) c1a) c1b := b then
      if c1b = c1a ∧ x = a then
        if let .intImm _ c1v := c1a then
          if c1v ≠ 0 then return addOp (floormodOp (subOp a y) c1a) y
    -- floordiv(x - y, c1) * c1 - x -> 0 - floormod(x - y, c1) - y
    if let .mul (.floordiv (.sub x y) c1a) c1b := a then
      if c1b = c1a ∧ x = b then
        if let .intImm _ c1v := c1a then
          if c1v ≠ 0 then
            return subOp (subOp (ZeroWithTypeLike b) (floormodOp (subOp b y) c1a)) y
    -- floordiv(x + c1, 2) - floordiv(x + c2, 2) (recursive, lines 659-661)
    if let .floordiv (.add x (.intImm d1 c1v)) (.intImm dt 2) := a then
      if let .floordiv (.add x2 (.intImm d2 c2v)) (.intImm _ 2) := b then
        if x2 = x then
          return ← rec c (addOp
            (mulOp (floormodOp x (.intImm dt 2))
              (subOp (floormodOp (.intImm d1 c1v) (.intImm dt 2))
                (floormodOp (.intImm d2 c2v) (.intImm dt 2))))
            (subOp (floordivOp (.intImm d1 c1v) (.intImm dt 2))
              (floordivOp (.intImm d2 c2v) (.intImm dt 2))))
    -- floordiv(x, 2) - floordiv(x + c2, 2) (recursive, lines 662-663)
    if let .floordiv x (.intImm dt 2) := a then
      if let .floordiv (.add x2 (.intImm d2 c2v)) (.intImm _ 2) := b then
        if x2 = x then
          return ← rec c (subOp
            (mulOp (floormodOp x (.intImm dt 2))
              (subOp (ZeroWithTypeLike x) (floormodOp (.intImm d2 c2v) (.intImm dt 2))))
            (floordivOp (.intImm d2 c2v) (.intImm dt 2)))
    -- floordiv(x + c1, 2) - floordiv(x, 2) (recursive, lines 664-665)
    if let .floordiv (.add x (.intImm d1 c1v)) (.intImm dt 2) := a then
      if let .floordiv x2 (.intImm _ 2) := b then
        if x2 = x then
          return ← rec c (addOp
            (mulOp (floormodOp x (.intImm dt 2)) (floormodOp (.intImm d1 c1v) (.intImm dt 2)))
            (floordivOp (.intImm d1 c1v) (.intImm dt 2)))
    -- x * c2 - floordiv(x, c1) * c3 -> floormod(x, c1) * c2   (c3 = c1 * c2)
    if let .mul x (.intImm d2 c2v) := a then
      if let .mul (.floordiv x2 (.intImm d1 c1v)) (.intImm _ c3v) := b then
        if x2 = x ∧ c1v ≠ 0 ∧ c3v = c1v * c2v then
          return mulOp (floormodOp x (.intImm d1 c1v)) (.intImm d2 c2v)
    -- floordiv(x, c1) * c3 - x * c2 -> 0 - floormod(x, c1) * c2
    if let .mul (.floordiv x (.intImm d1 c1v)) (.intImm _ c3v) := a then
      if let .mul x2 (.intImm d2 c2v) := b then
        if x2 = x ∧ c1v ≠ 0 ∧ c3v = c1v * c2v then
          return subOp (ZeroWithTypeLike x)
            (mulOp (floormodOp x (.intImm d1 c1v)) (.intImm d2 c2v))
    -- x * c2 - floordiv(x + y, c1) * c3 -> (floormod(x + y, c1) - y) * c2
    if let .mul x (.intImm d2 c2v) := a then
      if let .mul (.floordiv (.add x2 y) (.intImm d1 c1v)) (.intImm _ c3v) := b then
        if x2 = x ∧ c1v ≠ 0 ∧ c3v = c1v * c2v then
          return mulOp (subOp (floormodOp (addOp x y) (.intImm d1 c1v)) y)
            (.intImm d2 c2v)
    -- floordiv(x + y, c1) * c3 - x * c2 -> (y - floormod(x + y, c1)) * c2
    if let .mul (.floordiv (.add x y) (.intImm d1 c1v)) (.intImm _ c3v) := a then
      if let .mul x2 (.intImm d2 c2v) := b then
        if x2 = x ∧ c1v ≠ 0 ∧ c3v = c1v * c2v then
          return mulOp (subOp y (floormodOp (addOp x y) (.intImm d1 c1v)))
            (.intImm d2 c2v)
    -- x * c2 - floordiv(x - y, c1) * c3 -> (floormod(x - y, c1) + y) * c2
    if let .mul x (.intImm d2 c2v) := a then
      if let .mul (.floordiv (.sub x2 y) (.intImm d1 c1v)) (.intImm _ c3v) := b then
        if x2 = x ∧ c1v ≠ 0 ∧ c3v = c1v * c2v then
          return mulOp (addOp (floormodOp (subOp x y) (.intImm d1 c1v)) y)
            (.intImm d2 c2v)
    -- floordiv(x - y, c1) * c3 - x * c2 -> (0 - floormod(x - y, c1) - y) * c2
    if let .mul (.floordiv (.sub x y) (.intImm d1 c1v)) (.intImm _ c3v) := a then
      if let .mul x2 (.intImm d2 c2v) := b then
        if x2 = x ∧ c1v ≠ 0 ∧ c3v = c1v * c2v then
          return mulOp
            (subOp (subOp (ZeroWithTypeLike x) (floormodOp (subOp x y) (.intImm d1 c1v))) y)
            (.intImm d2 c2v)
    -- floordiv(x + 1, 2) - floormod(x, 2) -> floordiv(x, 2)   (recursive)
    if let .floordiv (.add x (.intImm _ 1)) (.intImm dt 2) := a then
      if let .floormod x2 (.intImm _ 2) := b then
        if x2 = x then return ← rec c (floordivOp x (.intImm dt 2))
    -- floordiv(x + c1, c3) - floordiv(x + c2, c3) -> ... (lines 688-690)
    if let .floordiv (.add x (.intImm d1 c1v)) (.intImm d3 c3v) := a then
      if let .floordiv (.add x2 (.intImm d2 c2v)) (.intImm _ c3v2) := b then
        if x2 = x ∧ c3v2 = c3v ∧ c3v > 0 then
          return floordivOp
            (addOp (floormodOp (addOp x (floormodOp (.intImm d2 c2v) (.intImm d3 c3v)))
                (.intImm d3 c3v))
              (subOp (.intImm d1 c1v) (.intImm d2 c2v)))
            (.intImm d3 c3v)
    -- floordiv(x + c1, c3) - floordiv(x, c3) -> floordiv(floormod(x, c3) + c1, c3)
    if let .floordiv (.add x (.intImm d1 c1v)) (.intImm d3 c3v) := a then
      if let .floordiv x2 (.intImm _ c3v2) := b then
        if x2 = x ∧ c3v2 = c3v ∧ c3v > 0 then
          return floordivOp (addOp (floormodOp x (.intImm d3 c3v)) (.intImm d1 c1v))
            (.intImm d3 c3v)
    -- canonicalization: x - c1 -> x + (0 - c1)
    if let .intImm d1 c1v := b then
      return addOp a (subOp (.intImm d1 0) (.intImm d1 c1v))
    -- (x + c1) - y -> (x - y) + c1   (recursive)
    if let .add x (.intImm d1 c1v) := a then
      return ← rec c (addOp (subOp x b) (.intImm d1 c1v))
    -- x - (y + c1) -> (x - y) + (0 - c1)   (recursive)
    if let .add y (.intImm d1 c1v) := b then
      return ← rec c (addOp (subOp a y) (subOp (.intImm d1 0) (.intImm d1 c1v)))
    -- x - (y - z) -> (x + z) - y   (recursive)
    if let .sub y z := b then
      return ← rec c (subOp (addOp a z) y)
    -- x - y * c1 -> x + y * (0 - c1)   (recursive)
    if let .mul y (.intImm d1 c1v) := b then
      return ← rec c (addOp a (mulOp y (subOp (.intImm d1 0) (.intImm d1 c1v))))
  else
    -- non-index cancellation rules, guarded by side effects (lines 701-716)
    if a = b ∧ SideEffect a ≤ 1 then return ZeroWithTypeLike a
    if let .add x y := a then
      if y = b ∧ SideEffect y ≤ 1 then return x
    if let .add x y := a then
      if x = b ∧ SideEffect x ≤ 1 then return y
    if let .add y x := b then
      if x = a ∧ SideEffect x ≤ 1 then return subOp (ZeroWithTypeLike y) y
    if let .add x y := b then
      if x = a ∧ SideEffect x ≤ 1 then return subOp (ZeroWithTypeLike y) y
  -- condition rules (lines 718-721)
  if let .select x t1 f1 := a then
    if let .select x2 t2 f2 := b then
      if x2 = x then return .select x (subOp t1 t2) (subOp f1 f2)
  if let .select x y z := a then
    if z = b then return .select x (subOp y z) (ZeroWithTypeLike z)
  if let .select x y z := a then
    if y = b then return .select x (ZeroWithTypeLike y) (subOp z y)
  return ret

/-- `VisitExpr_(MulNode)` (lines 725-762). -/
def VisitMul (rec : Rec) (c : Ctx) (a b : Expr) : Except Trap Expr := do
  let ret := Expr.mul a b
  if let some cf := TryConstFold2 .mul a b then return cf
  -- vector rules (lines 738-744): vacuous, no vector dtypes in the embedding
  if IsIndexType ret.dtype then
    -- (x + c1) * c2 -> x * c2 + c1 * c2
    if let .add x (.intImm d1 c1v) := a then
      if let .intImm d2 c2v := b then
        return addOp (mulOp x (.intImm d2 c2v)) (mulOp (.intImm d1 c1v) (.intImm d2 c2v))
    -- (x * c1) * c2 -> x * (c1 * c2)
    if let .mul x (.intImm d1 c1v) := a then
      if let .intImm d2 c2v := b then
        return mulOp x (mulOp (.intImm d1 c1v) (.intImm d2 c2v))
    -- min(x, y) * max(x, y) | max(x, y) * min(x, y) -> x * y
    if let .minE x y := a then
      if let .maxE x2 y2 := b then
        if x2 = x ∧ y2 = y then return mulOp x y
    if let .maxE x y := a then
      if let .minE x2 y2 := b then
        if x2 = x ∧ y2 = y then return mulOp x y
    -- floordiv(x - floormod(x, c2), c1) * c1 -> x - floormod(x, c2) if c1 = -c2
    if let .floordiv (.sub x (.floormod x2 (.intImm d2 c2v))) c1a := a then
      if x2 = x ∧ c1a = b then
        if let .intImm _ c1v := c1a then
          if c1v = -c2v then return subOp x (floormodOp x (.intImm d2 c2v))
    -- x * (c1 * y) -> (x * y) * c1   (recursive)
    if let .mul (.intImm d1 c1v) y := b then
      return ← rec c (mulOp (mulOp a y) (.intImm d1 c1v))
    -- c1 * x -> x * c1   (recursive)
    if let .intImm d1 c1v := a then
      return ← rec c (mulOp b (.intImm d1 c1v))
    -- (x - y) * c1 -> (y - x) * (0 - c1) if c1 < 0   (recursive)
    if let .sub x y := a then
      if let .intImm d1 c1v := b then
        if c1v < 0 then
          return ← rec c (mulOp (subOp y x) (subOp (.intImm d1 0) (.intImm d1 c1v)))
  return ret

/-- `VisitExpr_(DivNode)` (lines 764-922): truncated division.  The float
literal divisor is replaced by a multiplication with its reciprocal (lines
775-780, guarded by the float-dtype `ICHECK`); the literal/literal refold at
lines 816-820 performs a native `int64` division. -/
def VisitDiv (_rec : Rec) (c : Ctx) (a b : Expr) : Except Trap Expr := do
  let ret := Expr.div a b
  if let some cf := TryConstFold2 .div a b then return cf
  -- x / 2.0 = x * 0.5 (lines 775-780)
  if let .floatImm fd fv := b then
    if ret.dtype.isFloat then return mulOp a (.floatImm fd (1 / fv))
    else throw .assertFail
  -- vector rules (lines 782-805): vacuous, no vector dtypes in the embedding
  if IsIndexType ret.dtype then
    -- re-fold truncated constant division (lines 816-820)
    if let .intImm _ c1v := a then
      if let .intImm _ c2v := b then
        let q ← cppDivI c1v c2v
        return .intImm ret.dtype (wrapDT ret.dtype q)
    -- truncdiv(truncdiv(x, c1), c2) -> truncdiv(x, c1 * c2)
    if let .div x (.intImm d1 c1v) := a then
      if let .intImm d2 c2v := b then
        if c1v > 0 ∧ c2v > 0 then
          return truncdivOp x (mulOp (.intImm d1 c1v) (.intImm d2 c2v))
    -- truncdiv(truncdiv(x, c1) + c2, c3) -> truncdiv(x + c1 * c2, c1 * c3)
    if let .add (.div x (.intImm d1 c1v)) (.intImm d2 c2v) := a then
      if let .intImm d3 c3v := b then
        if c1v > 0 ∧ c2v ≥ 0 ∧ c3v > 0 ∧ CanProveGreaterEqual c x 0 then
          return truncdivOp (addOp x (mulOp (.intImm d1 c1v) (.intImm d2 c2v)))
            (mulOp (.intImm d1 c1v) (.intImm d3 c3v))
    -- truncdiv(x * c1, c2) scaling (lines 831-838)
    if let .mul x (.intImm d1 c1v) := a then
      if let .intImm d2 c2v := b then
        if c1v > 0 ∧ c2v > 0 then
          if tmodI c1v c2v = 0 then
            return mulOp x (truncdivOp (.intImm d1 c1v) (.intImm d2 c2v))
          if tmodI c2v c1v = 0 then
            return truncdivOp x (truncdivOp (.intImm d2 c2v) (.intImm d1 c1v))
    -- truncdiv(x, x) -> 1
    if a = b then return OneWithTypeLike a
    -- truncdiv(x * c1, x) | truncdiv(c1 * x, x) -> c1
    if let .mul x (.intImm d1 c1v) := a then
      if x = b then return .intImm d1 c1v
    if let .mul (.intImm d1 c1v) x := a then
      if x = b then return .intImm d1 c1v
    -- 2-operand rules (lines 844-872)
    if let .add (.mul x (.intImm d1 c1v)) y := a then
      if let .intImm d2 c2v := b then
        if c1v ≥ 0 ∧ c2v > 0 ∧ tmodI c1v c2v = 0 ∧
            CanProveGreaterEqual c x 0 ∧ CanProveGreaterEqual c y 0 then
          return addOp (mulOp x (truncdivOp (.intImm d1 c1v) (.intImm d2 c2v)))
            (truncdivOp y (.intImm d2 c2v))
    if let .minE (.mul x (.intImm d1 c1v)) y := a then
      if let .intImm d2 c2v := b then
        if c1v ≥ 0 ∧ c2v > 0 ∧ tmodI c1v c2v = 0 ∧
            CanProveGreaterEqual c x 0 ∧ CanProveGreaterEqual c y 0 then
          return minOp (mulOp x (truncdivOp (.intImm d1 c1v) (.intImm d2 c2v)))
            (truncdivOp y (.intImm d2 c2v))
    if let .maxE (.mul x (.intImm d1 c1v)) y := a then
      if let .intImm d2 c2v := b then
        if c1v ≥ 0 ∧ c2v > 0 ∧ tmodI c1v c2v = 0 ∧
            CanProveGreaterEqual c x 0 ∧ CanProveGreaterEqual c y 0 then
          return maxOp (mulOp x (truncdivOp (.intImm d1 c1v) (.intImm d2 c2v)))
            (truncdivOp y (.intImm d2 c2v))
    if let .add y (.mul x (.intImm d1 c1v)) := a then
      if let .intImm d2 c2v := b then
        if c1v ≥ 0 ∧ c2v > 0 ∧ tmodI c1v c2v = 0 ∧
            CanProveGreaterEqual c x 0 ∧ CanProveGreaterEqual c y 0 then
          return addOp (truncdivOp y (.intImm d2 c2v))
            (mulOp x (truncdivOp (.intImm d1 c1v) (.intImm d2 c2v)))
    if let .minE y (.mul x (.intImm d1 c1v)) := a then
      if let .intImm d2 c2v := b then
        if c1v ≥ 0 ∧ c2v > 0 ∧ tmodI c1v c2v = 0 ∧
            CanProveGreaterEqual c x 0 ∧ CanProveGreaterEqual c y 0 then
          return minOp (truncdivOp y (.intImm d2 c2v))
            (mulOp x (truncdivOp (.intImm d1 c1v) (.intImm d2 c2v)))
    if let .maxE y (.mul x (.intImm d1 c1v)) := a then
      if let .intImm d2 c2v := b then
        if c1v ≥ 0 ∧ c2v > 0 ∧ tmodI c1v c2v = 0 ∧
            CanProveGreaterEqual c x 0 ∧ CanProveGreaterEqual c y 0 then
          return maxOp (truncdivOp y (.intImm d2 c2v))
            (mulOp x (truncdivOp (.intImm d1 c1v) (.intImm d2 c2v)))
    -- 3-operand rules (lines 875-907)
    if let .add (.add (.mul x (.intImm d1 c1v)) y) z := a then
      if let .intImm d2 c2v := b then
        if c1v ≥ 0 ∧ c2v > 0 ∧ tmodI c1v c2v = 0 ∧ CanProveGreaterEqual c x 0 ∧
            CanProveGreaterEqual c (addOp y z) 0 then
          return addOp (mulOp x (truncdivOp (.intImm d1 c1v) (.intImm d2 c2v)))
            (truncdivOp (addOp y z) (.intImm d2 c2v))
    if let .add (.sub (.mul x (.intImm d1 c1v)) y) z := a then
      if let .intImm d2 c2v := b then
        if c1v ≥ 0 ∧ c2v > 0 ∧ tmodI c1v c2v = 0 ∧ CanProveGreaterEqual c x 0 ∧
            CanProveGreaterEqual c (subOp z y) 0 then
          return addOp (mulOp x (truncdivOp (.intImm d1 c1v) (.intImm d2 c2v)))
            (truncdivOp (subOp z y) (.intImm d2 c2v))
    if let .sub (.add (.mul x (.intImm d1 c1v)) y) z := a then
      if let .intImm d2 c2v := b then
        if c1v ≥ 0 ∧ c2v > 0 ∧ tmodI c1v c2v = 0 ∧ CanProveGreaterEqual c x 0 ∧
            CanProveGreaterEqual c (subOp y z) 0 then
          return addOp (mulOp x (truncdivOp (.intImm d1 c1v) (.intImm d2 c2v)))
            (truncdivOp (subOp y z) (.intImm d2 c2v))
    if let .add (.add y (.mul x (.intImm d1 c1v))) z := a then
      if let .intImm d2 c2v := b then
        if c1v > 0 ∧ c2v > 0 ∧ tmodI c1v c2v = 0 ∧ CanProveGreaterEqual c x 0 ∧
            CanProveGreaterEqual c (addOp y z) 0 then
          return addOp (mulOp x (truncdivOp (.intImm d1 c1v) (.intImm d2 c2v)))
            (truncdivOp (addOp y z) (.intImm d2 c2v))
    -- truncdiv(x + c1, c2) -> truncdiv(x, c2) + truncdiv(c1, c2)
    if let .add x (.intImm d1 c1v) := a then
      if let .intImm d2 c2v := b then
        if c1v > 0 ∧ c2v > 0 ∧ tmodI c1v c2v = 0 ∧ CanProveGreaterEqual c x 0 then
          return addOp (truncdivOp x (.intImm d2 c2v))
            (truncdivOp (.intImm d1 c1v) (.intImm d2 c2v))
    -- truncdiv(x + y, x) | truncdiv(y + x, x) -> truncdiv(y, x) + 1
    if let .add p q := a then
      if p = b then
        if CanProveGreaterEqual c b 0 ∧ CanProveGreaterEqual c q 0 then
          return addOp (truncdivOp q b) (.intImm q.dtype 1)
      if q = b then
        if CanProveGreaterEqual c b 0 ∧ CanProveGreaterEqual c p 0 then
          return addOp (truncdivOp p b) (.intImm p.dtype 1)
    -- truncdiv((x + y) + z, x) and friends -> truncdiv(y + z, x) + 1
    if let .add (.add p q) z := a then
      if p = b then
        if CanProveGreaterEqual c b 0 ∧ CanProveGreaterEqual c (addOp q z) 0 then
          return addOp (truncdivOp (addOp q z) b) (.intImm q.dtype 1)
      if q = b then
        if CanProveGreaterEqual c b 0 ∧ CanProveGreaterEqual c (addOp p z) 0 then
          return addOp (truncdivOp (addOp p z) b) (.intImm p.dtype 1)
    if let .add y (.add p q) := a then
      if q = b then
        if CanProveGreaterEqual c b 0 ∧ CanProveGreaterEqual c (addOp y p) 0 then
          return addOp (truncdivOp (addOp y p) b) (.intImm y.dtype 1)
      if p = b then
        if CanProveGreaterEqual c b 0 ∧ CanProveGreaterEqual c (addOp y q) 0 then
          return addOp (truncdivOp (addOp y q) b) (.intImm y.dtype 1)
    -- truncdiv(x * y, y) | truncdiv(y * x, y) -> x
    if let .mul p q := a then
      if q = b then
        if CanProveGreaterEqual c p 0 ∧ CanProveGreaterEqual c q 0 then return p
      if p = b then
        if CanProveGreaterEqual c q 0 ∧ CanProveGreaterEqual c p 0 then return q
    -- truncdiv(x * z + y, z) | truncdiv(z * x + y, z) -> x + truncdiv(y, z)
    if let .add (.mul p q) y := a then
      if q = b then
        if CanProveGreaterEqual c p 0 ∧ CanProveGreaterEqual c y 0 ∧
            CanProveGreaterEqual c q 0 then
          return addOp p (truncdivOp y b)
      if p = b then
        if CanProveGreaterEqual c q 0 ∧ CanProveGreaterEqual c y 0 ∧
            CanProveGreaterEqual c p 0 then
          return addOp q (truncdivOp y b)
    -- truncdiv(y + x * z, z) | truncdiv(y + z * x, z) -> truncdiv(y, z) + x
    if let .add y (.mul p q) := a then
      if q = b then
        if CanProveGreaterEqual c p 0 ∧ CanProveGreaterEqual c y 0 ∧
            CanProveGreaterEqual c q 0 then
          return addOp (truncdivOp y b) p
      if p = b then
        if CanProveGreaterEqual c q 0 ∧ CanProveGreaterEqual c y 0 ∧
            CanProveGreaterEqual c p 0 then
          return addOp (truncdivOp y b) q
  return ret

/-- `VisitExpr_(ModNode)` (lines 924-1011): truncated modulus.  The modular
analysis at lines 1003-1009 evaluates `mod->coeff % c1val` natively, before
checking `c1val > 0`. -/
def VisitMod (rec : Rec) (c : Ctx) (a b : Expr) : Except Trap Expr := do
  let ret := Expr.mod a b
  if let some cf := TryConstFold2 .mod a b then return cf
  -- vector rules (lines 937-971): vacuous, no vector dtypes in the embedding
  if IsIndexType ret.dtype then
    -- truncmod(x * c1, c2) -> 0
    if let .mul x (.intImm _ c1v) := a then
      if let .intImm _ c2v := b then
        if c2v ≠ 0 ∧ tmodI c1v c2v = 0 then return ZeroWithTypeLike x
    -- truncmod(x * c1 + y, c2) -> truncmod(y, c2)
    if let .add (.mul x (.intImm d1 c1v)) y := a then
      if let .intImm d2 c2v := b then
        if c2v > 0 ∧ tmodI c1v c2v = 0 ∧
            CanProveGreaterEqual c (mulOp x (.intImm d1 c1v)) 0 ∧
            CanProveGreaterEqual c y 0 then
          return truncmodOp y (.intImm d2 c2v)
    -- truncmod(x + c1, c2) -> truncmod(x, c2)
    if let .add x (.intImm _ c1v) := a then
      if let .intImm d2 c2v := b then
        if c2v > 0 ∧ c1v ≥ 0 ∧ tmodI c1v c2v = 0 ∧ CanProveGreaterEqual c x 0 then
          return truncmodOp x (.intImm d2 c2v)
    -- truncmod(x + y * c1, c2) -> truncmod(x, c2)
    if let .add x (.mul y (.intImm d1 c1v)) := a then
      if let .intImm d2 c2v := b then
        if c2v > 0 ∧ tmodI c1v c2v = 0 ∧ CanProveGreaterEqual c x 0 ∧
            CanProveGreaterEqual c (mulOp y (.intImm d1 c1v)) 0 then
          return truncmodOp x (.intImm d2 c2v)
    -- truncmod(x, c1) -> truncmod(x, -c1) if c1 < 0   (recursive)
    if let .intImm _ c1v := b then
      if c1v < 0 then
        return ← rec c (truncmodOp a (.intImm ret.dtype (-c1v)))
    -- modular analysis (lines 1003-1009)
    if let .intImm _ c1v := b then
      let m := c.oracle.modularSet c.actx a
      let r ← cppModI m.coeff c1v
      if r = 0 ∧ c1v > 0 ∧ CanProveGreaterEqual c a 0 then
        return truncmodOp (.intImm ret.dtype m.base) b
  return ret

/-- `VisitExpr_(FloorDivNode)` (lines 1014-1157). -/
def VisitFloorDiv (rec : Rec) (c : Ctx) (a b : Expr) : Except Trap Expr := do
  let ret := Expr.floordiv a b
  if let some cf := TryConstFold2 .floordiv a b then return cf
  -- vector rules (lines 1026-1054): vacuous, no vector dtypes in the embedding
  if IsIndexType ret.dtype then
    -- floordiv(floordiv(x, c1), c2) -> floordiv(x, c1 * c2)
    if let .floordiv x (.intImm d1 c1v) := a then
      if let .intImm d2 c2v := b then
        if c1v > 0 ∧ c2v > 0 then
          return floordivOp x (mulOp (.intImm d1 c1v) (.intImm d2 c2v))
    -- floordiv(floordiv(x, c1) + c2, c3) -> floordiv(x + c1 * c2, c1 * c3)
    if let .add (.floordiv x (.intImm d1 c1v)) (.intImm d2 c2v) := a then
      if let .intImm d3 c3v := b then
        if c1v > 0 ∧ c3v > 0 then
          return floordivOp (addOp x (mulOp (.intImm d1 c1v) (.intImm d2 c2v)))
            (mulOp (.intImm d1 c1v) (.intImm d3 c3v))
    -- residue elimination / divisor simplification block (lines 1065-1092)
    let blockMatch : Option (Expr × Expr × Int × Int) :=
      (match a, b with
       | .add (.mul x (.intImm _ c1v)) y, .intImm _ c2v => some (x, y, c1v, c2v)
       | _, _ => none) <|>
      (match a, b with
       | .mul x (.intImm _ c1v), .intImm _ c2v =>
           some (x, .intImm .i32 0, c1v, c2v)
       | _, _ => none) <|>
      (match a, b with
       | .add y (.mul x (.intImm _ c1v)), .intImm _ c2v => some (x, y, c1v, c2v)
       | _, _ => none)
    if let some (x, yval, c1v, c2v) := blockMatch then
      if c2v = 0 then return ret
      let residue := floordivOp
        (addOp (mulOp x (floormodOp (.intImm x.dtype c1v) (.intImm x.dtype c2v)))
          (floormodOp yval (.intImm yval.dtype c2v)))
        (.intImm x.dtype c2v)
      let yDiv ← do
        if (← CanProveEqual rec c (floordivOp yval (.intImm yval.dtype c2v)) 0) then
          pure (Expr.intImm yval.dtype 0)
        else pure (floordivOp yval (.intImm yval.dtype c2v))
      let bound := c.oracle.constIntBound c.actx residue
      if bound.max_value = bound.min_value then
        return addOp (mulOp x (floordivOp (.intImm x.dtype c1v) (.intImm x.dtype c2v)))
          (addOp yDiv (.intImm .i32 bound.max_value))
      if c1v > 0 ∧ c2v > 0 ∧ tmodI c2v c1v = 0 ∧
          CanProveLess c (floormodOp yval (.intImm yval.dtype c2v)) c1v then
        return addOp (floordivOp x (.intImm x.dtype (fdivI c2v c1v))) yDiv
    -- floordiv(x, x) -> 1
    if a = b then return OneWithTypeLike a
    -- floordiv(x * c1, x) | floordiv(c1 * x, x) -> c1
    if let .mul x (.intImm d1 c1v) := a then
      if x = b then return .intImm d1 c1v
    if let .mul (.intImm d1 c1v) x := a then
      if x = b then return .intImm d1 c1v
    -- floordiv(floormod(x, 2) + 1, 2) -> floormod(x, 2)
    if let .add (.floormod x (.intImm dt 2)) (.intImm _ 1) := a then
      if let .intImm _ 2 := b then
        return floormodOp x (.intImm dt 2)
    -- 2-operand min/max rules (lines 1100-1110)
    if let .minE (.mul x (.intImm d1 c1v)) y := a then
      if let .intImm d2 c2v := b then
        if c2v > 0 ∧ tmodI c1v c2v = 0 then
          return minOp (mulOp x (floordivOp (.intImm d1 c1v) (.intImm d2 c2v)))
            (floordivOp y (.intImm d2 c2v))
    if let .maxE (.mul x (.intImm d1 c1v)) y := a then
      if let .intImm d2 c2v := b then
        if c2v > 0 ∧ tmodI c1v c2v = 0 then
          return maxOp (mulOp x (floordivOp (.intImm d1 c1v) (.intImm d2 c2v)))
            (floordivOp y (.intImm d2 c2v))
    if let .minE y (.mul x (.intImm d1 c1v)) := a then
      if let .intImm d2 c2v := b then
        if c2v > 0 ∧ tmodI c1v c2v = 0 then
          return minOp (floordivOp y (.intImm d2 c2v))
            (mulOp x (floordivOp (.intImm d1 c1v) (.intImm d2 c2v)))
    if let .maxE y (.mul x (.intImm d1 c1v)) := a then
      if let .intImm d2 c2v := b then
        if c2v > 0 ∧ tmodI c1v c2v = 0 then
          return maxOp (floordivOp y (.intImm d2 c2v))
            (mulOp x (floordivOp (.intImm d1 c1v) (.intImm d2 c2v)))
    -- 3-operand rules (lines 1113-1128)
    if let .add (.add (.mul x (.intImm d1 c1v)) y) z := a then
      if let .intImm d2 c2v := b then
        if c2v > 0 ∧ tmodI c1v c2v = 0 then
          return addOp (mulOp x (floordivOp (.intImm d1 c1v) (.intImm d2 c2v)))
            (floordivOp (addOp y z) (.intImm d2 c2v))
    if let .add (.add (.mul x (.intImm d1 c1v)) y) z := a then
      if let .intImm d2 c2v := b then
        if c1v > 0 ∧ c2v > 0 ∧ tmodI c2v c1v = 0 ∧
            (← CanProveEqual rec c (floordivOp (addOp y z) (.intImm d1 c1v)) 0) then
          return floordivOp x (floordivOp (.intImm d2 c2v) (.intImm d1 c1v))
    if let .add (.sub (.mul x (.intImm d1 c1v)) y) z := a then
      if let .intImm d2 c2v := b then
        if c2v > 0 ∧ tmodI c1v c2v = 0 then
          return addOp (mulOp x (floordivOp (.intImm d1 c1v) (.intImm d2 c2v)))
            (floordivOp (subOp z y) (.intImm d2 c2v))
    if let .sub (.add (.mul x (.intImm d1 c1v)) z) y := a then
      if let .intImm d2 c2v := b then
        if c2v > 0 ∧ tmodI c1v c2v = 0 then
          return addOp (mulOp x (floordivOp (.intImm d1 c1v) (.intImm d2 c2v)))
            (floordivOp (subOp z y) (.intImm d2 c2v))
    if let .add (.add y (.mul x (.intImm d1 c1v))) z := a then
      if let .intImm d2 c2v := b then
        if c2v > 0 ∧ tmodI c1v c2v = 0 then
          return addOp (mulOp x (floordivOp (.intImm d1 c1v) (.intImm d2 c2v)))
            (floordivOp (addOp y z) (.intImm d2 c2v))
    -- floordiv(x + c1, c2) -> floordiv(x, c2) + floordiv(c1, c2)
    if let .add x (.intImm d1 c1v) := a then
      if let .intImm d2 c2v := b then
        if c2v > 0 ∧ tmodI c1v c2v = 0 then
          return addOp (floordivOp x (.intImm d2 c2v))
            (floordivOp (.intImm d1 c1v) (.intImm d2 c2v))
    -- floordiv(x * c1, x * c2) -> floordiv(c1, c2)
    if let .mul x (.intImm d1 c1v) := a then
      if let .mul x2 (.intImm d2 c2v) := b then
        if x2 = x ∧ c2v > 0 then
          return floordivOp (.intImm d1 c1v) (.intImm d2 c2v)
    -- floordiv(x + y, x) | floordiv(y + x, x) -> floordiv(y, x) + 1
    if let .add p q := a then
      if p = b then
        if CanProveGreaterEqual c b 0 then
          return addOp (floordivOp q b) (.intImm q.dtype 1)
      if q = b then
        if CanProveGreaterEqual c b 0 then
          return addOp (floordivOp p b) (.intImm p.dtype 1)
    -- floordiv((x + y) + z, x) and friends -> floordiv(y + z, x) + 1
    if let .add (.add p q) z := a then
      if p = b then
        if CanProveGreaterEqual c b 0 then
          return addOp (floordivOp (addOp q z) b) (.intImm q.dtype 1)
      if q = b then
        if CanProveGreaterEqual c b 0 then
          return addOp (floordivOp (addOp p z) b) (.intImm p.dtype 1)
    if let .add y (.add p q) := a then
      if q = b then
        if CanProveGreaterEqual c b 0 then
          return addOp (floordivOp (addOp y p) b) (.intImm y.dtype 1)
      if p = b then
        if CanProveGreaterEqual c b 0 then
          return addOp (floordivOp (addOp y q) b) (.intImm y.dtype 1)
    -- floordiv(x * y, y) | floordiv(y * x, y) -> x
    if let .mul p q := a then
      if q = b then
        if CanProveGreaterEqual c q 0 then return p
      if p = b then
        if CanProveGreaterEqual c p 0 then return q
    -- floordiv(x * z + y, z) | floordiv(z * x + y, z) -> x + floordiv(y, z)
    if let .add (.mul p q) y := a then
      if q = b then
        if CanProveGreaterEqual c q 0 then return addOp p (floordivOp y b)
      if p = b then
        if CanProveGreaterEqual c p 0 then return addOp q (floordivOp y b)
    -- floordiv(y + x * z, z) | floordiv(y + z * x, z) -> floordiv(y, z) + x
    if let .add y (.mul p q) := a then
      if q = b then
        if CanProveGreaterEqual c q 0 then return addOp (floordivOp y b) p
      if p = b then
        if CanProveGreaterEqual c p 0 then return addOp (floordivOp y b) q
    -- floordiv(x * z * c1 + y, z * c1) -> x + floordiv(y, z * c1)
    if let .add (.mul (.mul x z) c1a) y := a then
      if let .intImm _ _ := c1a then
        if let .mul z2 c1b := b then
          if z2 = z ∧ c1b = c1a then
            if CanProveGreaterEqual c (mulOp z c1a) 0 then
              return addOp x (floordivOp y (mulOp z c1a))
    -- floordiv(x - floormod(x, c1), c1) -> floordiv(x, c1)
    if let .sub x (.floormod x2 c1a) := a then
      if x2 = x ∧ c1a = b then
        if let .intImm _ c1v := c1a then
          if c1v ≠ 0 then return floordivOp x c1a
    -- scalable divisor (lines 1152-1154)
    if ContainsVscaleCall b ∧ CanProveGreaterEqual c a 0 ∧
        CanProveGreaterEqual c b 0 ∧ CanProve c (ltOp a b) then
      return ZeroWithTypeLike a
  return ret

/-- `VisitExpr_(FloorModNode)` (lines 1159-1274). -/
def VisitFloorMod (rec : Rec) (c : Ctx) (a b : Expr) : Except Trap Expr := do
  let ret := Expr.floormod a b
  if let some cf := TryConstFold2 .floormod a b then return cf
  -- vector rules (lines 1172-1209): vacuous, no vector dtypes in the embedding
  if IsIndexType ret.dtype then
    -- floormod(x * c1, c2) -> floormod(x * floormod(c1, c2), c2)
    if let .mul x (.intImm d1 c1v) := a then
      if let .intImm d2 c2v := b then
        if c2v ≠ 0 then
          return floormodOp (mulOp x (floormodOp (.intImm d1 c1v) (.intImm d2 c2v)))
            (.intImm d2 c2v)
    -- floormod(x * c1 + y, c2) -> floormod(x, floordiv(c2, c1)) * c1 + y
    if let .add (.mul x (.intImm d1 c1v)) y := a then
      if let .intImm d2 c2v := b then
        if c1v > 0 ∧ c2v > 0 ∧ tmodI c2v c1v = 0 ∧
            (← CanProveEqual rec c (floordivOp y (.intImm d1 c1v)) 0) then
          return addOp
            (mulOp (floormodOp x (floordivOp (.intImm d2 c2v) (.intImm d1 c1v)))
              (.intImm d1 c1v))
            y
    -- floormod(x * c1 + y, c2) -> floormod(x * floormod(c1, c2) + y, c2)
    if let .add (.mul x (.intImm d1 c1v)) y := a then
      if let .intImm d2 c2v := b then
        if c2v > 0 then
          return floormodOp
            (addOp (mulOp x (floormodOp (.intImm d1 c1v) (.intImm d2 c2v))) y)
            (.intImm d2 c2v)
    -- floormod(x + c1, c2) -> floormod(x + floormod(c1, c2), c2)
    if let .add x (.intImm d1 c1v) := a then
      if let .intImm d2 c2v := b then
        if c2v > 0 ∧ (c1v ≥ c2v ∨ c1v < 0) then
          return floormodOp (addOp x (floormodOp (.intImm d1 c1v) (.intImm d2 c2v)))
            (.intImm d2 c2v)
    -- floormod(x + y * c1, c2) -> floormod(x + y * floormod(c1, c2), c2)
    if let .add x (.mul y (.intImm d1 c1v)) := a then
      if let .intImm d2 c2v := b then
        if c2v > 0 then
          return floormodOp
            (addOp x (mulOp y (floormodOp (.intImm d1 c1v) (.intImm d2 c2v))))
            (.intImm d2 c2v)
    -- floormod(x * c1, x * c2) -> x * floormod(c1, c2)
    if let .mul x (.intImm d1 c1v) := a then
      if let .mul x2 (.intImm d2 c2v) := b then
        if x2 = x ∧ c2v ≠ 0 then
          return mulOp x (floormodOp (.intImm d1 c1v) (.intImm d2 c2v))
    -- floormod(x * y, y) | floormod(y * x, y) -> 0
    if let .mul p q := a then
      if q = b then return ZeroWithTypeLike q
      if p = b then return ZeroWithTypeLike p
    -- floormod(x + floormod(z, y), y) | floormod(floormod(z, y) + x, y) -> 0
    if let .add x (.floormod z y2) := a then
      if y2 = b then
        if (← CanProveEqual rec c (floormodOp (addOp x z) b) 0) then
          return ZeroWithTypeLike x
    if let .add (.floormod z y2) x := a then
      if y2 = b then
        if (← CanProveEqual rec c (floormodOp (addOp x z) b) 0) then
          return ZeroWithTypeLike x
    -- floormod(x - floormod(x, z), y) | floormod(floormod(x, z) - x, y) -> 0
    if let .sub x (.floormod x2 z) := a then
      if x2 = x then
        if (← CanProveEqual rec c (subOp b z) 0) then return ZeroWithTypeLike x
        else if (← CanProveEqual rec c (addOp b z) 0) then return ZeroWithTypeLike x
    if let .sub (.floormod x z) x2 := a then
      if x2 = x then
        if (← CanProveEqual rec c (subOp b z) 0) then return ZeroWithTypeLike x
        else if (← CanProveEqual rec c (addOp b z) 0) then return ZeroWithTypeLike x
    -- floormod(x * z * c1 + y, z * c1) -> floormod(y, z * c1)
    if let .add (.mul (.mul _x z) c1a) y := a then
      if let .intImm _ _ := c1a then
        if let .mul z2 c1b := b then
          if z2 = z ∧ c1b = c1a then
            if CanProveGreaterEqual c (mulOp z c1a) 0 then
              return floormodOp y (mulOp z c1a)
    -- scalable divisor (lines 1251-1253)
    if ContainsVscaleCall b ∧ CanProveGreaterEqual c a 0 ∧
        CanProveGreaterEqual c b 0 ∧ CanProve c (ltOp a b) then
      return a
    -- modular analysis and in-range no-op (lines 1255-1271)
    if let .intImm _ c1v := b then
      if c1v > 0 then
        let m := c.oracle.modularSet c.actx a
        if tmodI m.coeff c1v = 0 then
          return floormodOp (.intImm ret.dtype m.base) b
        let bound := c.oracle.constIntBound c.actx a
        if bound.min_value ≥ 0 ∧ bound.max_value < c1v then
          return a
  return ret

/-- `VisitExpr_(MinNode)` (lines 1276-1458). -/
def VisitMin (rec : Rec) (c : Ctx) (a b : Expr) : Except Trap Expr := do
  let ret := Expr.minE a b
  if let some cf := TryConstFold2 .minE a b then return cf
  -- vector rules (lines 1288-1292): vacuous, no vector dtypes in the embedding
  if IsIndexType ret.dtype then
    -- min(x, x) -> x
    if a = b then return a
    -- constant int bound decision (lines 1297-1304)
    let aBound := c.oracle.constIntBound c.actx a
    let bBound := c.oracle.constIntBound c.actx b
    if aBound.max_value ≤ bBound.min_value then return a
    if bBound.max_value ≤ aBound.min_value then return b
    -- min(x + c1, x + c2) (lines 1307-1313)
    if let .add x (.intImm d1 c1v) := a then
      if let .add x2 (.intImm d2 c2v) := b then
        if x2 = x then
          if c1v < c2v then return addOp x (.intImm d1 c1v)
          else return addOp x (.intImm d2 c2v)
    -- min(x + c1, x) | min(x, x + c1) (lines 1314-1320)
    if let .add x (.intImm d1 c1v) := a then
      if x = b then
        if c1v < 0 then return addOp x (.intImm d1 c1v) else return x
    if let .add x (.intImm d1 c1v) := b then
      if x = a then
        if c1v < 0 then return addOp x (.intImm d1 c1v) else return x
    -- min(c1 - x, c2 - x) (lines 1321-1327)
    if let .sub (.intImm d1 c1v) x := a then
      if let .sub (.intImm d2 c2v) x2 := b then
        if x2 = x then
          if c1v < c2v then return subOp (.intImm d1 c1v) x
          else return subOp (.intImm d2 c2v) x
    -- min(truncdiv(x + c1, c2) * c2, x) family -> x (lines 1331-1334)
    if let .mul (.div (.add x (.intImm _ c1v)) c2a) c2b := a then
      if c2b = c2a ∧ x = b then
        if let .intImm _ c2v := c2a then
          if c2v > 0 ∧ c1v + 1 = c2v then return b
    if let .mul (.floordiv (.add x (.intImm _ c1v)) c2a) c2b := a then
      if c2b = c2a ∧ x = b then
        if let .intImm _ c2v := c2a then
          if c2v > 0 ∧ c1v + 1 = c2v then return b
    if let .mul (.div (.add x (.intImm _ c1v)) c2a) c2b := b then
      if c2b = c2a ∧ x = a then
        if let .intImm _ c2v := c2a then
          if c2v > 0 ∧ c1v + 1 = c2v then return a
    if let .mul (.floordiv (.add x (.intImm _ c1v)) c2a) c2b := b then
      if c2b = c2a ∧ x = a then
        if let .intImm _ c2v := c2a then
          if c2v > 0 ∧ c1v + 1 = c2v then return a
    -- min(truncdiv(x + c1, c2) * c2, max(x, c2)) family -> max(x, c2) (1336-1342)
    if let .mul (.div (.add x (.intImm _ c1v)) c2a) c2b := a then
      if c2b = c2a then
        if let .maxE x2 c2c := b then
          if x2 = x ∧ c2c = c2a then
            if let .intImm _ c2v := c2a then
              if c2v > 0 ∧ c1v + 1 = c2v ∧ CanProveGreaterEqual c x 1 then
                return b
    if let .maxE x c2c := a then
      if let .mul (.div (.add x2 (.intImm _ c1v)) c2a) c2b := b then
        if c2b = c2a ∧ x2 = x ∧ c2c = c2a then
          if let .intImm _ c2v := c2a then
            if c2v > 0 ∧ c1v + 1 = c2v ∧ CanProveGreaterEqual c x 1 then
              return a
    if let .mul (.floordiv (.add x (.intImm _ c1v)) c2a) c2b := a then
      if c2b = c2a then
        if let .maxE x2 c2c := b then
          if x2 = x ∧ c2c = c2a then
            if let .intImm _ c2v := c2a then
              if c2v > 0 ∧ c1v + 1 = c2v ∧ CanProveGreaterEqual c x 1 then
                return b
    if let .maxE x c2c := a then
      if let .mul (.floordiv (.add x2 (.intImm _ c1v)) c2a) c2b := b then
        if c2b = c2a ∧ x2 = x ∧ c2c = c2a then
          if let .intImm _ c2v := c2a then
            if c2v > 0 ∧ c1v + 1 = c2v ∧ CanProveGreaterEqual c x 1 then
              return a
    -- min(x, floordiv(x, c2) * c2) | min(floordiv(x, c2) * c2, x) (1344-1345)
    if let .mul (.floordiv x c2a) c2b := b then
      if c2b = c2a ∧ x = a then
        if let .intImm _ c2v := c2a then
          if c2v > 0 then return mulOp (floordivOp a c2a) c2a
    if let .mul (.floordiv x c2a) c2b := a then
      if c2b = c2a ∧ x = b then
        if let .intImm _ c2v := c2a then
          if c2v > 0 then return mulOp (floordivOp b c2a) c2a
    -- absorption into min(x, y) (lines 1347-1357)
    if let .maxE x y := a then
      if let .minE p q := b then
        if (p = x ∧ q = y) ∨ (p = y ∧ q = x) then return minOp x y
    if let .minE x y := a then
      if let .maxE p q := b then
        if (p = x ∧ q = y) ∨ (p = y ∧ q = x) then return minOp x y
    if let .minE x y := a then
      if b = x ∨ b = y then return minOp x y
    if let .minE x y := b then
      if a = x ∨ a = y then return minOp x y
    -- min(max(x, y), x) family -> x (lines 1359-1365)
    if let .maxE x y := a then
      if b = x then return x
      if b = y then return y
    if let .maxE x y := b then
      if a = x then return x
      if a = y then return y
    -- nested min chains (lines 1367-1370)
    if let .minE (.minE x y) z := a then
      if b = y then return minOp (minOp x y) z
    if let .minE (.minE (.minE x y) z) s1 := a then
      if b = y then return minOp (minOp (minOp x y) z) s1
    if let .minE (.minE (.minE (.minE x y) z) s1) s2 := a then
      if b = y then return minOp (minOp (minOp (minOp x y) z) s1) s2
    -- min(max(x, y), max(x, z)) family -> max(min(y, z), x) (1372-1378)
    if let .maxE a1 a2 := a then
      if let .maxE b1 b2 := b then
        if a1 = b1 then return maxOp (minOp a2 b2) a1
        if a1 = b2 then return maxOp (minOp a2 b1) a1
        if a2 = b1 then return maxOp (minOp a1 b2) a2
        if a2 = b2 then return maxOp (minOp a1 b1) a2
    -- min(min(x, y), min(x, z)) family -> min(min(y, z), x) (1380-1386)
    if let .minE a1 a2 := a then
      if let .minE b1 b2 := b then
        if a1 = b1 then return minOp (minOp a2 b2) a1
        if a1 = b2 then return minOp (minOp a2 b1) a1
        if a2 = b1 then return minOp (minOp a1 b2) a2
        if a2 = b2 then return minOp (minOp a1 b1) a2
    -- min(y + x, z + x) family -> min(y, z) + x (1388-1394)
    if let .add a1 a2 := a then
      if let .add b1 b2 := b then
        if a2 = b2 then return addOp (minOp a1 b1) a2
        if a2 = b1 then return addOp (minOp a1 b2) a2
        if a1 = b1 then return addOp (minOp a2 b2) a1
        if a1 = b2 then return addOp (minOp a2 b1) a1
    -- sub distribution (1397-1398)
    if let .sub y x := a then
      if let .sub z x2 := b then
        if x2 = x then return subOp (minOp y z) x
    if let .sub x y := a then
      if let .sub x2 z := b then
        if x2 = x then return subOp x (maxOp y z)
    -- min(min(x, c1), c2) -> min(x, min(c1, c2)) (1401)
    if let .minE x (.intImm d1 c1v) := a then
      if let .intImm d2 c2v := b then
        return minOp x (minOp (.intImm d1 c1v) (.intImm d2 c2v))
    -- scaling rules (1404-1438)
    if let .div x c1a := a then
      if let .div y c1b := b then
        if c1b = c1a then
          if let .intImm _ c1v := c1a then
            if c1v > 0 then return truncdivOp (minOp x y) c1a
            else return truncdivOp (maxOp x y) c1a
    if let .floordiv x c1a := a then
      if let .floordiv y c1b := b then
        if c1b = c1a then
          if let .intImm _ c1v := c1a then
            if c1v > 0 then return floordivOp (minOp x y) c1a
            else return floordivOp (maxOp x y) c1a
    if let .mul x c1a := a then
      if let .mul y c1b := b then
        if c1b = c1a then
          if let .intImm _ c1v := c1a then
            if c1v > 0 then return mulOp (minOp x y) c1a
            else return mulOp (maxOp x y) c1a
    if let .mul x c1a := a then
      if let .intImm d1 c1v := c1a then
        if let .intImm d2 c2v := b then
          if c1v = 0 then
            if c2v < 0 then return .intImm d2 c2v else return .intImm d1 c1v
          if tmodI c2v c1v = 0 then
            if c1v > 0 then
              return mulOp (minOp x (.intImm x.dtype (tdivI c2v c1v))) (.intImm d1 c1v)
            else
              return mulOp (maxOp x (.intImm x.dtype (tdivI c2v c1v))) (.intImm d1 c1v)
    -- vscale expression comparison (1441-1448)
    if ContainsVscaleCall a ∨ ContainsVscaleCall b then
      if CanProve c (leOp a b) then return a
      if CanProve c (leOp b a) then return b
    -- canonicalization (1451-1452, recursive)
    if let .minE x (.intImm d1 c1v) := a then
      return ← rec c (minOp (minOp x b) (.intImm d1 c1v))
    if let .sub (.intImm d1 c1v) x := a then
      if let .intImm d2 c2v := b then
        if c2v ≠ 0 then
          return ← rec c (subOp (.intImm d1 c1v)
            (maxOp x (subOp (.intImm d1 c1v) (.intImm d2 c2v))))
  -- condition rule (line 1456)
  if let .select x t1 f1 := a then
    if let .select x2 t2 f2 := b then
      if x2 = x then return .select x (minOp t1 t2) (minOp f1 f2)
  return ret

/-- `VisitExpr_(MaxNode)` (lines 1460-1651). -/
def VisitMax (rec : Rec) (c : Ctx) (a b : Expr) : Except Trap Expr := do
  let ret := Expr.maxE a b
  if let some cf := TryConstFold2 .maxE a b then return cf
  -- vector rules (lines 1472-1476): vacuous, no vector dtypes in the embedding
  if IsIndexType ret.dtype then
    -- max(x, x) -> x
    if a = b then return a
    -- constant int bound decision (lines 1481-1488)
    let aBound := c.oracle.constIntBound c.actx a
    let bBound := c.oracle.constIntBound c.actx b
    if aBound.min_value ≥ bBound.max_value then return a
    if bBound.min_value ≥ aBound.max_value then return b
    -- max(x + c1, x + c2) (lines 1491-1497)
    if let .add x (.intImm d1 c1v) := a then
      if let .add x2 (.intImm d2 c2v) := b then
        if x2 = x then
          if c1v > c2v then return addOp x (.intImm d1 c1v)
          else return addOp x (.intImm d2 c2v)
    -- max(x + c1, x) | max(x, x + c1) (lines 1498-1504)
    if let .add x (.intImm d1 c1v) := a then
      if x = b then
        if c1v > 0 then return addOp x (.intImm d1 c1v) else return x
    if let .add x (.intImm d1 c1v) := b then
      if x = a then
        if c1v > 0 then return addOp x (.intImm d1 c1v) else return x
    -- max(c1 - x, c2 - x) (lines 1505-1511)
    if let .sub (.intImm d1 c1v) x := a then
      if let .sub (.intImm d2 c2v) x2 := b then
        if x2 = x then
          if c1v > c2v then return subOp (.intImm d1 c1v) x
          else return subOp (.intImm d2 c2v) x
    -- max(truncdiv(x + c1, c2) * c2, x) -> truncdiv(x + c1, c2) * c2 (1516-1521)
    if let .mul (.div (.add x (.intImm _ c1v)) c2a) c2b := a then
      if c2b = c2a ∧ x = b then
        if let .intImm _ c2v := c2a then
          if c2v > 0 ∧ c1v + 1 = c2v then return a
    if let .mul (.div (.add x (.intImm _ c1v)) c2a) c2b := b then
      if c2b = c2a ∧ x = a then
        if let .intImm _ c2v := c2a then
          if c2v > 0 ∧ c1v + 1 = c2v then return b
    -- max(floordiv(x + c1, c2) * c2, x) -> floordiv(x + c1, c2) * c2 (1524-1529)
    if let .mul (.floordiv (.add x (.intImm _ c1v)) c2a) c2b := a then
      if c2b = c2a ∧ x = b then
        if let .intImm _ c2v := c2a then
          if c2v > 0 ∧ c1v + 1 = c2v then return a
    if let .mul (.floordiv (.add x (.intImm _ c1v)) c2a) c2b := b then
      if c2b = c2a ∧ x = a then
        if let .intImm _ c2v := c2a then
          if c2v > 0 ∧ c1v + 1 = c2v then return b
    -- max(floordiv(x, c2) * c2, x) -> x (1531-1535)
    if let .mul (.floordiv x c2a) c2b := a then
      if c2b = c2a ∧ x = b then
        if let .intImm _ c2v := c2a then
          if c2v > 0 then return b
    if let .mul (.floordiv x c2a) c2b := b then
      if c2b = c2a ∧ x = a then
        if let .intImm _ c2v := c2a then
          if c2v > 0 then return a
    -- max(min(x, y), x) family -> x (1537-1543)
    if let .minE x y := a then
      if b = x then return x
      if b = y then return y
    if let .minE x y := b then
      if a = x then return x
      if a = y then return y
    -- absorption into max(x, y) (1545-1555)
    if let .minE x y := a then
      if let .maxE p q := b then
        if (p = x ∧ q = y) ∨ (p = y ∧ q = x) then return maxOp x y
    if let .maxE x y := a then
      if let .minE p q := b then
        if (p = x ∧ q = y) ∨ (p = y ∧ q = x) then return maxOp x y
    if let .maxE x y := a then
      if b = x ∨ b = y then return maxOp x y
    if let .maxE x y := b then
      if a = x ∨ a = y then return maxOp x y
    -- nested max chains (1557-1560)
    if let .maxE (.maxE x y) z := a then
      if b = y then return maxOp (maxOp x y) z
    if let .maxE (.maxE (.maxE x y) z) s1 := a then
      if b = y then return maxOp (maxOp (maxOp x y) z) s1
    if let .maxE (.maxE (.maxE (.maxE x y) z) s1) s2 := a then
      if b = y then return maxOp (maxOp (maxOp (maxOp x y) z) s1) s2
    -- max/max cancellation (1563-1569)
    if let .maxE a1 a2 := a then
      if let .maxE b1 b2 := b then
        if a1 = b1 then return maxOp (maxOp a2 b2) a1
        if a1 = b2 then return maxOp (maxOp a2 b1) a1
        if a2 = b1 then return maxOp (maxOp a1 b2) a2
        if a2 = b2 then return maxOp (maxOp a1 b1) a2
    -- max/min distribution (1572-1578)
    if let .minE a1 a2 := a then
      if let .minE b1 b2 := b then
        if a1 = b1 then return minOp (maxOp a2 b2) a1
        if a1 = b2 then return minOp (maxOp a2 b1) a1
        if a2 = b1 then return minOp (maxOp a1 b2) a2
        if a2 = b2 then return minOp (maxOp a1 b1) a2
    -- add distribution (1581-1587)
    if let .add a1 a2 := a then
      if let .add b1 b2 := b then
        if a2 = b2 then return addOp (maxOp a1 b1) a2
        if a2 = b1 then return addOp (maxOp a1 b2) a2
        if a1 = b1 then return addOp (maxOp a2 b2) a1
        if a1 = b2 then return addOp (maxOp a2 b1) a1
    -- sub distribution (1590-1591)
    if let .sub y x := a then
      if let .sub z x2 := b then
        if x2 = x then return subOp (maxOp y z) x
    if let .sub x y := a then
      if let .sub x2 z := b then
        if x2 = x then return subOp x (minOp y z)
    -- max(max(x, c1), c2) -> max(x, max(c1, c2)) (1594)
    if let .maxE x (.intImm d1 c1v) := a then
      if let .intImm d2 c2v := b then
        return maxOp x (maxOp (.intImm d1 c1v) (.intImm d2 c2v))
    -- scaling rules (1597-1631)
    if let .div x c1a := a then
      if let .div y c1b := b then
        if c1b = c1a then
          if let .intImm _ c1v := c1a then
            if c1v > 0 then return truncdivOp (maxOp x y) c1a
            else return truncdivOp (minOp x y) c1a
    if let .floordiv x c1a := a then
      if let .floordiv y c1b := b then
        if c1b = c1a then
          if let .intImm _ c1v := c1a then
            if c1v > 0 then return floordivOp (maxOp x y) c1a
            else return floordivOp (minOp x y) c1a
    if let .mul x c1a := a then
      if let .mul y c1b := b then
        if c1b = c1a then
          if let .intImm _ c1v := c1a then
            if c1v > 0 then return mulOp (maxOp x y) c1a
            else return mulOp (minOp x y) c1a
    if let .mul x c1a := a then
      if let .intImm d1 c1v := c1a then
        if let .intImm d2 c2v := b then
          if c1v = 0 then
            if c2v > 0 then return .intImm d2 c2v else return .intImm d1 c1v
          if tmodI c2v c1v = 0 then
            if c1v > 0 then
              return mulOp (maxOp x (.intImm x.dtype (tdivI c2v c1v))) (.intImm d1 c1v)
            else
              return mulOp (minOp x (.intImm x.dtype (tdivI c2v c1v))) (.intImm d1 c1v)
    -- vscale expression comparison (1634-1641)
    if ContainsVscaleCall a ∨ ContainsVscaleCall b then
      if CanProve c (geOp a b) then return a
      if CanProve c (geOp b a) then return b
    -- canonicalization (1644-1645, recursive)
    if let .maxE x (.intImm d1 c1v) := a then
      return ← rec c (maxOp (maxOp x b) (.intImm d1 c1v))
    if let .sub (.intImm d1 c1v) x := a then
      if let .intImm d2 c2v := b then
        if c2v ≠ 0 then
          return ← rec c (subOp (.intImm d1 c1v)
            (minOp x (subOp (.intImm d1 c1v) (.intImm d2 c2v))))
  -- condition rule (line 1649)
  if let .select x t1 f1 := a then
    if let .select x2 t2 f2 := b then
      if x2 = x then return .select x (maxOp t1 t2) (maxOp f1 f2)
  return ret

/-- The alternating branch-constraint loop shared by the `And`/`Or` visitors
(lines 2029-2046 and 2178-2195): up to four iterations, each visiting one
branch under the other branch's constraint (for `Or`, its normalized
negation), stopping after two consecutive visits without change.  Object
identity (`same_as`) is modelled as deep equality, following the mutator
convention of returning the original node when nothing changed. -/
def BranchLoop (rec : Rec) (c : Ctx) (isAnd : Bool) :
    Nat → Nat → Nat → Expr → Expr → Except Trap (Expr × Expr)
  | _, 0, _, a, b => pure (a, b)
  | i, r + 1, sinceUpdate, a, b => do
    let toA := i % 2 = 0
    let constraint := if toA then b else a
    let cons :=
      if isAnd then constraint else NormalizeBooleanOperators (.not constraint)
    let c' := { c with actx := c.actx ++ [cons] }
    let target := if toA then a else b
    let updated ← rec c' target
    if updated = target then
      if sinceUpdate + 1 ≥ 2 then pure (a, b)
      else BranchLoop rec c isAnd (i + 1) r (sinceUpdate + 1) a b
    else
      if toA then BranchLoop rec c isAnd (i + 1) r 0 updated b
      else BranchLoop rec c isAnd (i + 1) r 0 a updated

/-- `VisitExpr_(AndNode)` (lines 2013-2158): `a0`/`b0` are the unvisited
children; the visitor either runs the branch-constraint loop (extension) or
the plain child mutation, then folds, consults the literal stack, optionally
hands off to the and-of-ors converter, and applies the `And` rule table. -/
def VisitAnd (rec : Rec) (c : Ctx) (a0 b0 : Expr) : Except Trap Expr := do
  let (a, b) ←
    if c.flags.applyConstraintsToBooleanBranches then
      BranchLoop rec c true 0 4 0 a0 b0
    else do
      pure ((← rec c a0), (← rec c b0))
  let ret := Expr.and a b
  if let some cf := TryConstFold2 .and a b then return cf
  if let some m := TryMatchLiteralConstraint c.stack ret then return m
  if c.flags.convertBooleanToAndOfOrs ∧ ¬c.recursivelyVisitingBoolean then
    return c.oracle.cnfConvert ret
  -- vector rule (2073-2075): vacuous, no vector dtypes in the embedding
  -- x == y && x != y -> false ; x != y && x == y -> false
  if let .eq x y := a then
    if let .ne x2 y2 := b then
      if x2 = x ∧ y2 = y then return boolImm false
  if let .ne x y := a then
    if let .eq x2 y2 := b then
      if x2 = x ∧ y2 = y then return boolImm false
  -- x && !x -> false
  if let .not x := b then
    if x = a then return boolImm false
  -- x <= y && y < x -> false ; y < x && x <= y -> false
  if let .le x y := a then
    if let .lt y2 x2 := b then
      if y2 = y ∧ x2 = x then return boolImm false
  if let .lt y x := a then
    if let .le x2 y2 := b then
      if x2 = x ∧ y2 = y then return boolImm false
  -- x < c1 && c2 < x -> false if c2 + 1 >= c1 (and mirrored)
  if let .lt x (.intImm _ c1v) := a then
    if let .lt (.intImm _ c2v) x2 := b then
      if x2 = x ∧ c2v + 1 ≥ c1v then return boolImm false
  if let .lt (.intImm _ c2v) x := a then
    if let .lt x2 (.intImm _ c1v) := b then
      if x2 = x ∧ c2v + 1 ≥ c1v then return boolImm false
  -- mixed strict/non-strict empty ranges (2087-2093)
  if let .lt x (.intImm _ c1v) := a then
    if let .le (.intImm _ c2v) x2 := b then
      if x2 = x ∧ c2v ≥ c1v then return boolImm false
  if let .le (.intImm _ c2v) x := a then
    if let .lt x2 (.intImm _ c1v) := b then
      if x2 = x ∧ c2v ≥ c1v then return boolImm false
  if let .le x (.intImm _ c1v) := a then
    if let .lt (.intImm _ c2v) x2 := b then
      if x2 = x ∧ c2v ≥ c1v then return boolImm false
  if let .lt (.intImm _ c2v) x := a then
    if let .le x2 (.intImm _ c1v) := b then
      if x2 = x ∧ c2v ≥ c1v then return boolImm false
  -- x <= c1 && c2 <= x -> false if c2 > c1 (2095-2099)
  if let .le x (.intImm _ c1v) := a then
    if let .le (.intImm _ c2v) x2 := b then
      if x2 = x ∧ c2v > c1v then return boolImm false
  if let .le (.intImm _ c2v) x := a then
    if let .le x2 (.intImm _ c1v) := b then
      if x2 = x ∧ c2v > c1v then return boolImm false
  -- (x == c1) && (x == c2) -> (x == c1) && (c1 == c2) (2101)
  if let .eq x (.intImm d1 c1v) := a then
    if let .eq x2 (.intImm d2 c2v) := b then
      if x2 = x then
        return andOp (eqOp x (.intImm d1 c1v)) (eqOp (.intImm d1 c1v) (.intImm d2 c2v))
  -- x == c1 && x != c2 | x != c2 && x == c1 -> x == c1 && c1 != c2 (2102)
  if let .eq x (.intImm d1 c1v) := a then
    if let .ne x2 (.intImm d2 c2v) := b then
      if x2 = x then
        return andOp (eqOp x (.intImm d1 c1v)) (neOp (.intImm d1 c1v) (.intImm d2 c2v))
  if let .ne x (.intImm d2 c2v) := a then
    if let .eq x2 (.intImm d1 c1v) := b then
      if x2 = x then
        return andOp (eqOp x (.intImm d1 c1v)) (neOp (.intImm d1 c1v) (.intImm d2 c2v))
  -- floordiv(x, c2) == c1 && floormod(x, c2) == c3 -> x == c1 * c2 + c3 (2104-2106)
  if let .eq (.floordiv x c2a) (.intImm d1 c1v) := a then
    if let .eq (.floormod x2 c2b) (.intImm d3 c3v) := b then
      if x2 = x ∧ c2b = c2a then
        return ← rec c (eqOp x (addOp (mulOp (.intImm d1 c1v) c2a) (.intImm d3 c3v)))
  if let .eq (.floormod x c2a) (.intImm d3 c3v) := a then
    if let .eq (.floordiv x2 c2b) (.intImm d1 c1v) := b then
      if x2 = x ∧ c2b = c2a then
        return ← rec c (eqOp x (addOp (mulOp (.intImm d1 c1v) c2a) (.intImm d3 c3v)))
  -- 0 <= x - y * c1 && x - y * c1 < c1 -> y == floordiv(x, c1) (2108-2112)
  if let .le (.intImm _ 0) (.sub x (.mul y c1a)) := a then
    if let .lt (.sub x2 (.mul y2 c1b)) c1c := b then
      if x2 = x ∧ y2 = y ∧ c1b = c1a ∧ c1c = c1a then
        if let .intImm _ c1v := c1a then
          if c1v > 0 then return ← rec c (eqOp y (floordivOp x c1a))
  if let .lt (.sub x (.mul y c1a)) c1c := a then
    if let .le (.intImm _ 0) (.sub x2 (.mul y2 c1b)) := b then
      if x2 = x ∧ y2 = y ∧ c1b = c1a ∧ c1c = c1a then
        if let .intImm _ c1v := c1a then
          if c1v > 0 then return ← rec c (eqOp y (floordivOp x c1a))
  -- c1 < x - y * c1 && x - y * c1 <= 0 -> y == floordiv(x, c1) (2114-2118)
  if let .lt c1c (.sub x (.mul y c1a)) := a then
    if c1c = c1a then
      if let .intImm _ _ := c1a then
        if let .le (.sub x2 (.mul y2 c1b)) (.intImm _ 0) := b then
          if x2 = x ∧ y2 = y ∧ c1b = c1a then
            return ← rec c (eqOp y (floordivOp x c1a))
  if let .lt (.sub x (.mul y c1a)) c1c := a then
    if c1c = c1a then
      if let .intImm _ _ := c1a then
        if let .le (.intImm _ 0) (.sub x2 (.mul y2 c1b)) := b then
          if x2 = x ∧ y2 = y ∧ c1b = c1a then
            return ← rec c (eqOp y (floordivOp x c1a))
  -- 0 <= x + y * c2 && x + y * c2 < c1 -> y == floordiv(x, c1) if c2 == -c1 (2119-2123)
  if let .le (.intImm _ 0) (.add x (.mul y (.intImm _ c2v))) := a then
    if let .lt (.add x2 (.mul y2 (.intImm _ c2v2))) (.intImm d1 c1v) := b then
      if x2 = x ∧ y2 = y ∧ c2v2 = c2v ∧ c2v = -c1v then
        return ← rec c (eqOp y (floordivOp x (.intImm d1 c1v)))
  if let .lt (.add x (.mul y (.intImm _ c2v))) (.intImm d1 c1v) := a then
    if let .le (.intImm _ 0) (.add x2 (.mul y2 (.intImm _ c2v2))) := b then
      if x2 = x ∧ y2 = y ∧ c2v2 = c2v ∧ c2v = -c1v then
        return ← rec c (eqOp y (floordivOp x (.intImm d1 c1v)))
  -- x < c1 && floormod(x, c2) < c3 tightenings (2125-2131)
  if let .lt x (.intImm d1 c1v) := a then
    if let .lt (.floormod x2 (.intImm d2 c2v)) (.intImm d3 c3v) := b then
      if x2 = x then
        let r ← cppModI c1v c2v
        if r = 0 then
          return ← rec c (andOp
            (ltOp x (addOp (subOp (.intImm d1 c1v) (.intImm d2 c2v)) (.intImm d3 c3v)))
            (ltOp (floormodOp x (.intImm d2 c2v)) (.intImm d3 c3v)))
  if let .lt x (.intImm d1 c1v) := a then
    if let .lt (.floormod x2 (.intImm d2 c2v)) (.intImm d3 c3v) := b then
      if x2 = x then
        let r1 ← cppModI c1v c2v
        let r2 ← cppModI (r1 + c2v) c2v
        if r2 > c3v then
          return ← rec c (andOp
            (ltOp x (addOp (subOp (.intImm d1 c1v)
                (floormodOp (.intImm d1 c1v) (.intImm d2 c2v))) (.intImm d3 c3v)))
            (ltOp (floormodOp x (.intImm d2 c2v)) (.intImm d3 c3v)))
  -- x <= c1 && floormod(x, c2) < c3 tightenings (2133-2139)
  if let .le x (.intImm d1 c1v) := a then
    if let .lt (.floormod x2 (.intImm d2 c2v)) (.intImm d3 c3v) := b then
      if x2 = x then
        let r ← cppModI (c1v + 1) c2v
        if r = 0 then
          return ← rec c (andOp
            (ltOp x (addOp (subOp (addOp (.intImm d1 c1v) (.intImm d1 1)) (.intImm d2 c2v))
              (.intImm d3 c3v)))
            (ltOp (floormodOp x (.intImm d2 c2v)) (.intImm d3 c3v)))
  if let .le x (.intImm d1 c1v) := a then
    if let .lt (.floormod x2 (.intImm d2 c2v)) (.intImm d3 c3v) := b then
      if x2 = x then
        let r1 ← cppModI (c1v + 1) c2v
        let r2 ← cppModI (r1 + c2v) c2v
        if r2 > c3v then
          return ← rec c (andOp
            (ltOp x (addOp (subOp (addOp (.intImm d1 c1v) (.intImm d1 1))
                (floormodOp (.intImm d1 c1v) (.intImm d2 c2v))) (.intImm d3 c3v)))
            (ltOp (floormodOp x (.intImm d2 c2v)) (.intImm d3 c3v)))
  -- floordiv(x, c2) == c1 && floormod(x, c2) < c3 -> range (2141-2143)
  if let .eq (.floordiv x c2a) (.intImm d1 c1v) := a then
    if let .lt (.floormod x2 c2b) (.intImm d3 c3v) := b then
      if x2 = x ∧ c2b = c2a then
        return ← rec c (andOp (leOp (mulOp (.intImm d1 c1v) c2a) x)
          (ltOp x (addOp (mulOp (.intImm d1 c1v) c2a) (.intImm d3 c3v))))
  if let .lt (.floormod x c2a) (.intImm d3 c3v) := a then
    if let .eq (.floordiv x2 c2b) (.intImm d1 c1v) := b then
      if x2 = x ∧ c2b = c2a then
        return ← rec c (andOp (leOp (mulOp (.intImm d1 c1v) c2a) x)
          (ltOp x (addOp (mulOp (.intImm d1 c1v) c2a) (.intImm d3 c3v))))
  -- floordiv(x, c2) == c1 && floormod(x, c2) <= c3 -> range (2144-2146)
  if let .eq (.floordiv x c2a) (.intImm d1 c1v) := a then
    if let .le (.floormod x2 c2b) (.intImm d3 c3v) := b then
      if x2 = x ∧ c2b = c2a then
        return ← rec c (andOp (leOp (mulOp (.intImm d1 c1v) c2a) x)
          (leOp x (addOp (mulOp (.intImm d1 c1v) c2a) (.intImm d3 c3v))))
  if let .le (.floormod x c2a) (.intImm d3 c3v) := a then
    if let .eq (.floordiv x2 c2b) (.intImm d1 c1v) := b then
      if x2 = x ∧ c2b = c2a then
        return ← rec c (andOp (leOp (mulOp (.intImm d1 c1v) c2a) x)
          (leOp x (addOp (mulOp (.intImm d1 c1v) c2a) (.intImm d3 c3v))))
  -- floordiv(x, c2) == c1 && c3 <= floormod(x, c2) -> range (2148-2150)
  if let .eq (.floordiv x c2a) (.intImm d1 c1v) := a then
    if let .le (.intImm d3 c3v) (.floormod x2 c2b) := b then
      if x2 = x ∧ c2b = c2a then
        return ← rec c (andOp (leOp (addOp (mulOp (.intImm d1 c1v) c2a) (.intImm d3 c3v)) x)
          (ltOp x (mulOp (addOp (.intImm d1 c1v) (.intImm d1 1)) c2a)))
  if let .le (.intImm d3 c3v) (.floormod x c2a) := a then
    if let .eq (.floordiv x2 c2b) (.intImm d1 c1v) := b then
      if x2 = x ∧ c2b = c2a then
        return ← rec c (andOp (leOp (addOp (mulOp (.intImm d1 c1v) c2a) (.intImm d3 c3v)) x)
          (ltOp x (mulOp (addOp (.intImm d1 c1v) (.intImm d1 1)) c2a)))
  -- floordiv(x, c2) == c1 && c3 < floormod(x, c2) -> range (2151-2153)
  if let .eq (.floordiv x c2a) (.intImm d1 c1v) := a then
    if let .lt (.intImm d3 c3v) (.floormod x2 c2b) := b then
      if x2 = x ∧ c2b = c2a then
        return ← rec c (andOp (ltOp (addOp (mulOp (.intImm d1 c1v) c2a) (.intImm d3 c3v)) x)
          (ltOp x (mulOp (addOp (.intImm d1 c1v) (.intImm d1 1)) c2a)))
  if let .lt (.intImm d3 c3v) (.floormod x c2a) := a then
    if let .eq (.floordiv x2 c2b) (.intImm d1 c1v) := b then
      if x2 = x ∧ c2b = c2a then
        return ← rec c (andOp (ltOp (addOp (mulOp (.intImm d1 c1v) c2a) (.intImm d3 c3v)) x)
          (ltOp x (mulOp (addOp (.intImm d1 c1v) (.intImm d1 1)) c2a)))
  -- x && (y && z) -> (x && y) && z (2155)
  if let .and y z := b then
    return ← rec c (andOp (andOp a y) z)
  return ret

/-- `VisitExpr_(OrNode)` (lines 2160-2258). -/
def VisitOr (rec : Rec) (c : Ctx) (a0 b0 : Expr) : Except Trap Expr := do
  let (a, b) ←
    if c.flags.applyConstraintsToBooleanBranches then
      BranchLoop rec c false 0 4 0 a0 b0
    else do
      pure ((← rec c a0), (← rec c b0))
  let ret := Expr.or a b
  if let some cf := TryConstFold2 .or a b then return cf
  if let some m := TryMatchLiteralConstraint c.stack ret then return m
  if c.flags.convertBooleanToAndOfOrs ∧ ¬c.recursivelyVisitingBoolean then
    return c.oracle.cnfConvert ret
  -- vector rule (2221-2223): vacuous, no vector dtypes in the embedding
  -- x == y || x != y -> true ; x != y || x == y -> true
  if let .eq x y := a then
    if let .ne x2 y2 := b then
      if x2 = x ∧ y2 = y then return boolImm true
  if let .ne x y := a then
    if let .eq x2 y2 := b then
      if x2 = x ∧ y2 = y then return boolImm true
  -- x || !x -> true
  if let .not x := b then
    if x = a then return boolImm true
  -- x <= y || y < x -> true ; y < x || x <= y -> true
  if let .le x y := a then
    if let .lt y2 x2 := b then
      if y2 = y ∧ x2 = x then return boolImm true
  if let .lt y x := a then
    if let .le x2 y2 := b then
      if x2 = x ∧ y2 = y then return boolImm true
  -- x < y || y < x -> x != y
  if let .lt x y := a then
    if let .lt y2 x2 := b then
      if y2 = y ∧ x2 = x then return neOp x y
  -- x < c1 || c2 < x -> true if c2 < c1 (and mirrored)
  if let .lt x (.intImm _ c1v) := a then
    if let .lt (.intImm _ c2v) x2 := b then
      if x2 = x ∧ c2v < c1v then return boolImm true
  if let .lt (.intImm _ c2v) x := a then
    if let .lt x2 (.intImm _ c1v) := b then
      if x2 = x ∧ c2v < c1v then return boolImm true
  -- mixed strict/non-strict full ranges (2238-2241)
  if let .le x (.intImm _ c1v) := a then
    if let .lt (.intImm _ c2v) x2 := b then
      if x2 = x ∧ c2v ≤ c1v then return boolImm true
  if let .lt (.intImm _ c2v) x := a then
    if let .le x2 (.intImm _ c1v) := b then
      if x2 = x ∧ c2v ≤ c1v then return boolImm true
  if let .lt x (.intImm _ c1v) := a then
    if let .le (.intImm _ c2v) x2 := b then
      if x2 = x ∧ c2v ≤ c1v then return boolImm true
  if let .le (.intImm _ c2v) x := a then
    if let .lt x2 (.intImm _ c1v) := b then
      if x2 = x ∧ c2v ≤ c1v then return boolImm true
  -- x <= c1 || c2 <= x -> true if c2 <= c1 + 1 (2243-2244)
  if let .le x (.intImm _ c1v) := a then
    if let .le (.intImm _ c2v) x2 := b then
      if x2 = x ∧ c2v ≤ c1v + 1 then return boolImm true
  if let .le (.intImm _ c2v) x := a then
    if let .le x2 (.intImm _ c1v) := b then
      if x2 = x ∧ c2v ≤ c1v + 1 then return boolImm true
  -- x != c1 || x != c2 -> x != c1 || c1 != c2 (2246)
  if let .ne x (.intImm d1 c1v) := a then
    if let .ne x2 (.intImm d2 c2v) := b then
      if x2 = x then
        return orOp (neOp x (.intImm d1 c1v)) (neOp (.intImm d1 c1v) (.intImm d2 c2v))
  -- x != c1 || x == c2 -> x != c1 || c1 == c2 (2247)
  if let .ne x (.intImm d1 c1v) := a then
    if let .eq x2 (.intImm d2 c2v) := b then
      if x2 = x then
        return orOp (neOp x (.intImm d1 c1v)) (eqOp (.intImm d1 c1v) (.intImm d2 c2v))
  -- x == c2 || x != c1 -> x != c1 || c1 == c2 (2248)
  if let .eq x (.intImm d2 c2v) := a then
    if let .ne x2 (.intImm d1 c1v) := b then
      if x2 = x then
        return orOp (neOp x (.intImm d1 c1v)) (eqOp (.intImm d1 c1v) (.intImm d2 c2v))
  -- x < y || x == y (and mirrors) -> x <= y (recursive, 2250-2253)
  if let .lt x y := a then
    if let .eq x2 y2 := b then
      if x2 = x ∧ y2 = y then return ← rec c (leOp x y)
  if let .lt x y := a then
    if let .eq y2 x2 := b then
      if y2 = y ∧ x2 = x then return ← rec c (leOp x y)
  if let .eq x y := a then
    if let .lt x2 y2 := b then
      if x2 = x ∧ y2 = y then return ← rec c (leOp x y)
  if let .eq y x := a then
    if let .lt x2 y2 := b then
      if x2 = x ∧ y2 = y then return ← rec c (leOp x y)
  -- x || (y || z) -> (x || y) || z (2255)
  if let .or y z := b then
    return ← rec c (orOp (orOp a y) z)
  return ret

/-- Bit width of a datatype (`dtype.bits()`). -/
def DT.bits : DT → Int
  | .i32 => 32
  | .b => 1
  | .f32 => 32

/-- `VisitExpr_(CallNode)` (lines 2270-2348): builtin folds (`likely`,
shifts, `ceil`, `ceil(log2(...))`, `clz`), `likely` literal-constraint
lookup, and the nested `if_then_else` merge.  The shift folding and the
`log2` of the rational float model come from code outside `src/` and are
modelled from the spec ("shift_left, shift_right fold on two int literals";
"ceil folds on literals and recognizes ceil(log2(float literal))"). -/
def VisitCall (c : Ctx) (d : DT) (op : CallOp) (ar : Nat) (x0 x1 x2 : Expr) :
    Except Trap Expr := do
  let ret := Expr.call d op ar x0 x1 x2
  if op.name = "tir.likely" ∧ isConstInt x0 then
    return x0
  else if op.name = "tir.shift_right" then
    if let .intImm d0 v0 := x0 then
      if let .intImm _ v1 := x1 then
        if 0 ≤ v1 ∧ v1 < 64 then
          return .intImm d0 (wrapDT d0 (fdivI v0 (2 ^ v1.toNat)))
  else if op.name = "tir.shift_left" then
    if let .intImm d0 v0 := x0 then
      if let .intImm _ v1 := x1 then
        if 0 ≤ v1 ∧ v1 < 64 then
          return .intImm d0 (wrapDT d0 (v0 * 2 ^ v1.toNat))
  else if op.name = "tir.ceil" then
    if let .intImm di vi := x0 then
      return castOp d (.intImm di vi)
    else if let .floatImm df vf := x0 then
      return castOp d (.floatImm df (((vf.ceil : Int) : Rat)))
    else if let .call _ op2 _ y0 _ _ := x0 then
      if op2.name = "tir.log2" then
        if let .floatImm _ vf := y0 then
          return .floatImm d ((((c.oracle.flog2 vf).ceil : Int) : Rat))
  else if op.name = "tir.clz" then
    if let .intImm di vi := x0 then
      let bits := DT.bits di
      if vi = 0 then return .intImm d bits
      let w := (vi.emod (2 ^ bits.toNat)).toNat
      if w = 0 then throw .assertFail
      return .intImm d (bits - 1 - (Nat.log2 w : Int))
  if op.name = "tir.likely" then
    if let some m := TryMatchLiteralConstraint c.stack x0 then return m
  if op.name = "tir.if_then_else" then
    if let .call _ op2 _ ic it ie := x1 then
      if op2.name = "tir.if_then_else" then
        if isConstNumber ie ∧ isConstNumber x2 ∧ CanProve c (eqOp ie x2) then
          return .call d op 3 (andOp x0 ic) it x2
  return ret

/-- One dispatch step of `RewriteSimplifier::Impl::VisitExpr`: the per-node
switch of the bottom-up pass, with `go` the re-entry into the rewrite core
(`VisitExpr` at one fuel step less). -/
def visitStep (go : Rec) (c : Ctx) (e : Expr) : Except Trap Expr :=
  match e with
  | .add a b => do VisitAdd go c (← go c a) (← go c b)
  | .sub a b => do VisitSub go c (← go c a) (← go c b)
  | .mul a b => do VisitMul go c (← go c a) (← go c b)
  | .div a b => do VisitDiv go c (← go c a) (← go c b)
  | .mod a b => do VisitMod go c (← go c a) (← go c b)
  | .floordiv a b => do VisitFloorDiv go c (← go c a) (← go c b)
  | .floormod a b => do VisitFloorMod go c (← go c a) (← go c b)
  | .minE a b => do VisitMin go c (← go c a) (← go c b)
  | .maxE a b => do VisitMax go c (← go c a) (← go c b)
  | .eq a b => do VisitEQ go c (← go c a) (← go c b)
  | .ne a b => do VisitNE go c (← go c a) (← go c b)
  | .lt a b => do VisitLT go c (← go c a) (← go c b)
  | .le a b => do VisitLE go c (← go c a) (← go c b)
  | .gt a b => go c (ltOp b a)
  | .ge a b => go c (leOp b a)
  | .and a b => VisitAnd go c a b
  | .or a b => VisitOr go c a b
  | .not a => do VisitNot go c (← go c a)
  | .select co t f => do
      VisitSelect (← go c co) (← go c t) (← go c f)
  | .cast d a => do VisitCast d (← go c a)
  | .call d op ar a0 a1 a2 => do
      let a0 ← if 1 ≤ ar then go c a0 else pure a0
      let a1 ← if 2 ≤ ar then go c a1 else pure a1
      let a2 ← if 3 ≤ ar then go c a2 else pure a2
      VisitCall c d op ar a0 a1 a2
  | .varE n dv => VisitVar c n dv
  | e => .ok e

/-- `RewriteSimplifier::Impl::VisitExpr` -- the fuel-indexed rewrite core:
one bottom-up pass dispatching to the per-opcode visitors, with every
re-entry (child visit, recursive rewrite, comparison of a difference)
consuming fuel.  Fuel models the maximum-rewrite-steps budget: on
exhaustion the current expression is returned as-is (spec §5). -/
def visit : Nat → Ctx → Expr → Except Trap Expr
  | 0, _, e => .ok e
  | fu + 1, c, e => visitStep (visit fu) c e

/-- `RewriteSimplifier::operator()` (lines 2395-2405): run the rewrite core
up to `max_iter = 2` times, stopping early when a pass returns a node
identical to its input (`same_as` is modelled as deep equality, following
the mutator convention of returning the original node when unchanged). -/
def simplifyDriver (f : Nat) (c : Ctx) (e : Expr) : Except Trap Expr := do
  let e1 ← visit f c e
  if e1 = e then return e
  let e2 ← visit f c e1
  if e2 = e1 then return e1
  return e2

/-- The scoped restore handle returned by `EnterConstraint`: the stack sizes
captured by the `frecover` closure (lines 522-527). -/
structure RestoreHandle where
  oldSize : Nat
  newSize : Nat
deriving DecidableEq, Repr

/-- The loop body of `EnterConstraint` (lines 508-521): a pure conjunct is
pushed together with the negation of its boolean normal form (for non-boolean
constraints, of its comparison with zero); a conjunct with side effects is
skipped. -/
def PushConstraint (st : List Expr) (s : Expr) : List Expr :=
  if SideEffect s ≤ 0 then
    let negation :=
      if s.dtype.isBool then NormalizeBooleanOperators (.not s)
      else eqOp s (.intImm s.dtype 0)
    st ++ [s, .not negation]
  else st

/-- `RewriteSimplifier::Impl::EnterConstraint` (lines 499-528): simplify the
constraint, split it into top-level conjuncts, push every pure conjunct
together with the negation of its boolean normal form, and return the
restore handle. -/
def EnterConstraint (f : Nat) (c : Ctx) (constraint : Expr) :
    Except Trap (Ctx × RestoreHandle) := do
  let oldSize := c.stack.length
  let newConstraint ← visit f c constraint
  let newStack := (ExtractConstraints newConstraint).foldl PushConstraint c.stack
  let c' := { c with stack := newStack }
  return (c', ⟨oldSize, newStack.length⟩)

/-- The `frecover` closure (lines 523-526): assert the stack still has the
size recorded at creation, then truncate it back to the prior size. -/
def RestoreConstraint (h : RestoreHandle) (c : Ctx) : Except Trap Ctx :=
  if c.stack.length = h.newSize then .ok { c with stack := c.stack.take h.oldSize }
  else .error .assertFail

/-! ### Concrete analyzer instantiations used by the theorems -/

/-- The no-information analyzer: the bound oracle knows only the `int64`
sentinels, the modular oracle only the trivial class `{0 + k}`, the
transitive-inequality and proof oracles never succeed.  This is what the
enclosing analyzer answers for a free variable about which nothing has been
asserted. -/
def oracle0 : Oracle where
  constIntBound := fun _ _ => ⟨kNegInf, kPosInf⟩
  modularSet := fun _ _ => ⟨1, 0⟩
  transitiveCompare := fun _ _ _ _ => kUnknown
  canProve := fun _ _ => false
  flog2 := fun _ => 0
  cnfConvert := id

/-- A fresh simplifier over the no-information analyzer: no extensions, no
substitutions, empty literal-constraint stack. -/
def ctx0 : Ctx := ⟨oracle0, Flags.none, [], [], [], false⟩

/-- The index-typed variable `x` of the worked example in the spec. -/
def xv : Expr := .varE "x" .i32

/-- The worked example `floormod(x*4 + 2, 4)`. -/
def e3 : Expr := .floormod (.add (.mul xv (.intImm .i32 4)) (.intImm .i32 2)) (.intImm .i32 4)

/-! ### Claim C3 -/

/-- Claim C3, counterexample to the first half: with no constraint entered,
`simplify(floormod(x*4 + 2, 4))` does NOT return the expression unchanged —
it already returns the integer literal `2` (the rule at line 1217 rewrites to
`floormod(x, 1)*4 + 2` whose guard needs no constraint, and the second driver
pass collapses `floormod(x, 1)` through modular analysis, which holds for the
no-information oracle because every modular set has `coeff % 1 == 0`). -/
theorem C3_cex :
    simplifyDriver 4 ctx0 e3 = .ok (.intImm .i32 2) ∧ Expr.intImm .i32 2 ≠ e3 :=
  ⟨rfl, fun h => Expr.noConfusion h⟩

/-- Claim C3 (amended): `simplify(floormod(x*4 + 2, 4))` returns the integer
literal `2` both with no constraint entered and after entering `x >= 0`; the
spec is wrong only in predicting the unconstrained result unchanged. -/
theorem C3_floormod_example :
    simplifyDriver 4 ctx0 e3 = .ok (.intImm .i32 2) ∧
    (∃ c1 h, EnterConstraint 4 ctx0 (.ge xv (.intImm .i32 0)) = .ok (c1, h) ∧
      simplifyDriver 4 c1 e3 = .ok (.intImm .i32 2)) :=
  ⟨rfl, ⟨_, _, rfl, rfl⟩⟩

/-! ### Claim C6 -/

/-- Claim C6: the spec says division or modulus by a zero constant never
folds and never traps, leaving the node in the IR.  That holds for
`FloorDiv`/`FloorMod`, but the `Div` visitor refolds `truncdiv(c1, c2)` with
a native division (line 818) and the `Mod` visitor evaluates
`mod->coeff % c1val` before its `c1val > 0` guard (line 1005), so
`Div(1, 0)` and `Mod(1, 0)` hit native division by zero — undefined
behaviour in the C++, a trap in this embedding. -/
theorem C6_div_mod_zero_trap :
    visit 2 ctx0 (.div (.intImm .i32 1) (.intImm .i32 0)) = .error .divByZero ∧
    visit 2 ctx0 (.mod (.intImm .i32 1) (.intImm .i32 0)) = .error .divByZero ∧
    visit 2 ctx0 (.floordiv (.intImm .i32 1) (.intImm .i32 0)) =
      .ok (.floordiv (.intImm .i32 1) (.intImm .i32 0)) ∧
    visit 2 ctx0 (.floormod (.intImm .i32 1) (.intImm .i32 0)) =
      .ok (.floormod (.intImm .i32 1) (.intImm .i32 0)) :=
  ⟨rfl, rfl, rfl, rfl⟩

/-! ### Claim C9 -/

/-- Claim C9: a `Select` node whose two branches simplify to deep-equal
results is replaced by that branch, dropping the condition — no side-effect
guard on the condition and no datatype restriction. -/
theorem C9_select_equal_branches (fu : Nat) (c : Ctx) (co t f co' t' : Expr)
    (hco : visit fu c co = .ok co') (ht : visit fu c t = .ok t')
    (hf : visit fu c f = .ok t') :
    visit (fu + 1) c (.select co t f) = .ok t' := by
  show (visit fu c co >>= fun rc => visit fu c t >>= fun rt =>
    visit fu c f >>= fun rf => VisitSelect rc rt rf) = .ok t'
  rw [hco, ht, hf]
  show VisitSelect co' t' t' = .ok t'
  unfold VisitSelect
  rw [if_pos rfl]
  rfl

/-- Claim C9, witness: a select on an unknown boolean condition (which is not
even pure in general) with syntactically equal simplified branches collapses
to the branch. -/
theorem C9_witness :
    visit 2 ctx0 (.select (.varE "c" .b) (.varE "y" .i32) (.varE "y" .i32)) =
      .ok (.varE "y" .i32) :=
  C9_select_equal_branches 1 ctx0 (.varE "c" .b) (.varE "y" .i32) (.varE "y" .i32)
    (.varE "c" .b) (.varE "y" .i32) rfl rfl rfl

/-! ### Claim C10 -/

/-- Claim C10, counterexample: a `Div` node whose divisor is a float literal
is NOT unconditionally turned into a product with the reciprocal — when the
dividend is also a float literal of the same type, constant folding runs
first and yields the quotient literal, not a multiplication: `6.0 / 2.0`
simplifies to the literal `3.0`. -/
theorem C10_cex :
    visit 2 ctx0 (.div (.floatImm .f32 6) (.floatImm .f32 2)) =
      .ok (.floatImm .f32 3) ∧
    Expr.floatImm .f32 3 ≠ .mul (.floatImm .f32 6) (.floatImm .f32 (1 / 2)) := by
  constructor
  · have h : visit 2 ctx0 (.div (.floatImm .f32 6) (.floatImm .f32 2)) =
        .ok (.floatImm .f32 ((6 : Rat) / 2)) := rfl
    rw [h]
    norm_num
  · exact fun h => Expr.noConfusion h

/-! ### Claim C5 -/

/-- The `LT` visitor returns the literal-constraint match when constant
folding declines and the stack matches (lines 1814-1817). -/
theorem VisitLT_stack_match (r : Rec) (c : Ctx) (a b m : Expr)
    (h1 : TryConstFold2 .lt a b = none)
    (h2 : TryMatchLiteralConstraint c.stack (.lt a b) = some m) :
    VisitLT r c a b = .ok m := by
  unfold VisitLT
  simp only [h1, h2]
  rfl

/-- The `Not` visitor folds a literal operand before anything else (line
1987). -/
theorem VisitNot_fold (r : Rec) (c : Ctx) (a m : Expr)
    (h : TryConstFoldNot a = some m) :
    VisitNot r c a = .ok m := by
  unfold VisitNot
  simp only [h]
  rfl

/-- The boolean atom of the amended claim C5: `x < 7` over a fresh
index-typed variable of the given name. -/
def ltAtom (nm : String) : Expr := .lt (.varE nm .i32) (.intImm .i32 7)

/-- The simplifier state after entering `x < 7`: the constraint and the
negation of its boolean normal form are on the literal stack. -/
def ctxAfter (nm : String) : Ctx :=
  { ctx0 with stack := PushConstraint [] (ltAtom nm) }

/-- Claim C5 (amended): constraint faithfulness holds for constraints that
survive simplification as a literal-stack atom — here the family `x < 7`
for every variable name: after `EnterConstraint`, simplifying the constraint
returns the `true` literal and simplifying its negation returns `false`.
(The unamended universal claim is refuted by `C5_cex`.) -/
theorem C5_constraint_faithfulness (nm : String) :
    ∃ cc h,
      EnterConstraint 3 ctx0 (ltAtom nm) = .ok (cc, h) ∧
      simplifyDriver 10 cc (ltAtom nm) = .ok (boolImm true) ∧
      simplifyDriver 10 cc (.not (ltAtom nm)) = .ok (boolImm false) := by
  have hm : TryMatchLiteralConstraint (ctxAfter nm).stack
      (.lt (.varE nm .i32) (.intImm .i32 7)) = some (.intImm .b 1) := by
    show TryMatchLiteralConstraint
        (Expr.lt (.varE nm .i32) (.intImm .i32 7) ::
          [.not (NormalizeBooleanOperators (.not (ltAtom nm)))])
        (.lt (.varE nm .i32) (.intImm .i32 7)) = some (.intImm .b 1)
    unfold TryMatchLiteralConstraint
    rw [if_pos rfl]
    rfl
  have hv : ∀ k, visit (k + 1) (ctxAfter nm) (.lt (.varE nm .i32) (.intImm .i32 7)) =
      .ok (.intImm .b 1) := by
    intro k
    cases k with
    | zero =>
      exact VisitLT_stack_match (visit 0) (ctxAfter nm) (.varE nm .i32) (.intImm .i32 7)
        (.intImm .b 1) rfl hm
    | succ k =>
      exact VisitLT_stack_match (visit (k + 1)) (ctxAfter nm) (.varE nm .i32) (.intImm .i32 7)
        (.intImm .b 1) rfl hm
  refine ⟨ctxAfter nm, ⟨0, 2⟩, rfl, ?_, ?_⟩
  · have h10 : visit 10 (ctxAfter nm) (.lt (.varE nm .i32) (.intImm .i32 7)) =
        .ok (.intImm .b 1) := hv 9
    show simplifyDriver 10 (ctxAfter nm) (.lt (.varE nm .i32) (.intImm .i32 7)) =
      .ok (.intImm .b 1)
    unfold simplifyDriver
    rw [h10]
    rfl
  · have hnot : visit 10 (ctxAfter nm) (.not (.lt (.varE nm .i32) (.intImm .i32 7))) =
        .ok (.intImm .b 0) := by
      show (visit 9 (ctxAfter nm) (.lt (.varE nm .i32) (.intImm .i32 7)) >>= fun a =>
        VisitNot (visit 9) (ctxAfter nm) a) = .ok (.intImm .b 0)
      rw [hv 8]
      exact VisitNot_fold (visit 9) (ctxAfter nm) (.intImm .b 1) (.intImm .b 0) rfl
    show simplifyDriver 10 (ctxAfter nm) (.not (.lt (.varE nm .i32) (.intImm .i32 7))) =
      .ok (.intImm .b 0)
    unfold simplifyDriver
    rw [hnot]
    rfl

/-- Claim C5, counterexample to the universal statement: entering the
boolean literal `false` as a constraint pushes it on the stack, but
simplifying it afterwards returns `false`, not the `true` literal — literal
nodes are returned by the mutator without consulting the constraint stack. -/
theorem C5_cex :
    EnterConstraint 10 ctx0 (boolImm false) =
      .ok ({ ctx0 with stack := PushConstraint [] (boolImm false) }, ⟨0, 2⟩) ∧
    simplifyDriver 10 { ctx0 with stack := PushConstraint [] (boolImm false) }
      (boolImm false) = .ok (boolImm false) ∧
    boolImm false ≠ boolImm true := by
  refine ⟨rfl, rfl, ?_⟩
  intro h
  exact absurd (congrArg (fun e => match e with | .intImm _ v => v | _ => 0) h) (by decide)

/-! ### Claim C7 -/

/-- The constraint-push loop only ever appends to the stack. -/
theorem foldl_PushConstraint_extends (l : List Expr) :
    ∀ st : List Expr, ∃ ext, l.foldl PushConstraint st = st ++ ext := by
  induction l with
  | nil => intro st; exact ⟨[], (List.append_nil st).symm⟩
  | cons s l ih =>
    intro st
    have hstep : ∃ mid, PushConstraint st s = st ++ mid := by
      unfold PushConstraint
      split
      · exact ⟨_, rfl⟩
      · exact ⟨[], (List.append_nil st).symm⟩
    obtain ⟨mid, hmid⟩ := hstep
    obtain ⟨ext, hext⟩ := ih (st ++ mid)
    exact ⟨mid ++ ext, by rw [List.foldl_cons, hmid, hext, List.append_assoc]⟩

/-- Claim C7: stack discipline of constraint scopes.  A successful
`EnterConstraint` returns a handle recording the prior and the new stack
size, and calling its restore brings the stack back to exactly the prior
stack; calling a restore when the stack size differs from the recorded new
size (out-of-order or double restore) fails the assertion instead of being
silently recovered. -/
theorem C7_stack_discipline :
    (∀ (f : Nat) (c : Ctx) (e : Expr) (c' : Ctx) (h : RestoreHandle),
        EnterConstraint f c e = .ok (c', h) →
        h.oldSize = c.stack.length ∧ h.newSize = c'.stack.length ∧
        ∃ c'', RestoreConstraint h c' = .ok c'' ∧ c''.stack = c.stack) ∧
    (∀ (h : RestoreHandle) (c : Ctx),
        c.stack.length ≠ h.newSize → RestoreConstraint h c = .error .assertFail) := by
  constructor
  · intro f c e c' h henter
    unfold EnterConstraint at henter
    cases hvis : visit f c e with
    | error t =>
      rw [hvis] at henter
      exact Except.noConfusion henter
    | ok nc =>
      rw [hvis] at henter
      have henter' : Except.ok (ε := Trap)
          ({ c with stack := (ExtractConstraints nc).foldl PushConstraint c.stack },
           (⟨c.stack.length, ((ExtractConstraints nc).foldl PushConstraint c.stack).length⟩ :
             RestoreHandle)) = .ok (c', h) := henter
      rw [Except.ok.injEq, Prod.mk.injEq] at henter'
      obtain ⟨hc', hh⟩ := henter'
      subst hc'
      subst hh
      refine ⟨rfl, rfl, ?_⟩
      obtain ⟨ext, hext⟩ := foldl_PushConstraint_extends (ExtractConstraints nc) c.stack
      refine ⟨{ c with
          stack := ((ExtractConstraints nc).foldl PushConstraint c.stack).take c.stack.length },
        ?_, ?_⟩
      · unfold RestoreConstraint
        rw [if_pos rfl]
      · show ((ExtractConstraints nc).foldl PushConstraint c.stack).take c.stack.length = c.stack
        rw [hext]
        exact List.take_left c.stack ext
  · intro h c hne
    unfold RestoreConstraint
    rw [if_neg hne]

/-- Claim C7, witness: entering `x >= 0` on a fresh simplifier pushes two
entries, and the restore handle brings the stack back to empty. -/
theorem C7_witness :
    (⟨0, 2⟩ : RestoreHandle).oldSize = (ctx0).stack.length ∧
    (⟨0, 2⟩ : RestoreHandle).newSize =
      ({ ctx0 with stack := PushConstraint [] (.le (.intImm .i32 0) xv) } : Ctx).stack.length ∧
    ∃ c'', RestoreConstraint ⟨0, 2⟩
        { ctx0 with stack := PushConstraint [] (.le (.intImm .i32 0) xv) } =
        .ok c'' ∧ c''.stack = (ctx0).stack :=
  C7_stack_discipline.1 1 ctx0 (.ge xv (.intImm .i32 0))
    { ctx0 with stack := PushConstraint [] (.le (.intImm .i32 0) xv) }
    ⟨0, 2⟩ rfl

/-! ### Claim C8 -/

/-- Claim C8: `NormalizeBooleanOperators` applies exactly these rules —
double-negation elimination, De Morgan pushdown of negation through
disjunction and conjunction (recursing on the negated operands), the three
shapes normalizing to a non-strict comparison, the three shapes normalizing
to a strict comparison, negated equality and disequality — and returns every
expression whose root matches none of the shapes unchanged. -/
theorem C8_normalize_boolean_operators :
    (∀ x, NormalizeBooleanOperators (.not (.not x)) = NormalizeBooleanOperators x) ∧
    (∀ x y, NormalizeBooleanOperators (.not (.or x y)) =
      andOp (NormalizeBooleanOperators (notOp x)) (NormalizeBooleanOperators (notOp y))) ∧
    (∀ x y, NormalizeBooleanOperators (.not (.and x y)) =
      orOp (NormalizeBooleanOperators (notOp x)) (NormalizeBooleanOperators (notOp y))) ∧
    (∀ x y, NormalizeBooleanOperators (.ge x y) = leOp y x) ∧
    (∀ x y, NormalizeBooleanOperators (.not (.lt x y)) = leOp y x) ∧
    (∀ x y, NormalizeBooleanOperators (.not (.gt x y)) = leOp x y) ∧
    (∀ x y, NormalizeBooleanOperators (.gt x y) = ltOp y x) ∧
    (∀ x y, NormalizeBooleanOperators (.not (.le x y)) = ltOp y x) ∧
    (∀ x y, NormalizeBooleanOperators (.not (.ge x y)) = ltOp x y) ∧
    (∀ x y, NormalizeBooleanOperators (.not (.eq x y)) = neOp x y) ∧
    (∀ x y, NormalizeBooleanOperators (.not (.ne x y)) = eqOp x y) ∧
    (∀ e, (match e with
            | .ge _ _ => False
            | .gt _ _ => False
            | .not (.not _) => False
            | .not (.or _ _) => False
            | .not (.and _ _) => False
            | .not (.lt _ _) => False
            | .not (.gt _ _) => False
            | .not (.le _ _) => False
            | .not (.ge _ _) => False
            | .not (.eq _ _) => False
            | .not (.ne _ _) => False
            | _ => True) → NormalizeBooleanOperators e = e) := by
  refine ⟨?_, ?_, ?_, ?_, ?_, ?_, ?_, ?_, ?_, ?_, ?_, ?_⟩
  case _ => intro x; rw [NormalizeBooleanOperators]
  case _ => intro x y; rw [NormalizeBooleanOperators]
  case _ => intro x y; rw [NormalizeBooleanOperators]
  case _ => intro x y; rw [NormalizeBooleanOperators]
  case _ => intro x y; rw [NormalizeBooleanOperators]
  case _ => intro x y; rw [NormalizeBooleanOperators]
  case _ => intro x y; rw [NormalizeBooleanOperators]
  case _ => intro x y; rw [NormalizeBooleanOperators]
  case _ => intro x y; rw [NormalizeBooleanOperators]
  case _ => intro x y; rw [NormalizeBooleanOperators]
  case _ => intro x y; rw [NormalizeBooleanOperators]
  case _ =>
    intro e h
    cases e with
    | ge a b => exact h.elim
    | gt a b => exact h.elim
    | not a =>
      cases a <;> first
        | exact h.elim
        | (rw [NormalizeBooleanOperators.eq_def])
    | _ => rw [NormalizeBooleanOperators.eq_def]

/-! ### Claim C4 -/

/-- Reduction of an `Except` bind over a success value. -/
theorem except_bind_ok {α β : Type} (a : α) (f : α → Except Trap β) :
    (Except.ok a >>= f) = f a := rfl

section C4
variable (r : Rec) (c : Ctx) (A B C D0 De : Expr) (aL aU bL bU cL cU dL dU : Int)

/-- `TryComparisonOfProductAndSum` on the matched shape with all-positive
bounds and a finite, overflow-safe `min(A,B)*D <= C` certificate returns
`kGT` (lines 270-321). -/
theorem C4_sum_lemma
    (hflag : c.flags.comparisonOfProductAndSum = true)
    (hrec : r c (subOp (.mul (.add A B) C) (.mul (.mul A B) De)) =
      .ok (.add (.mul (.add A B) C) (.mul (.mul A B) D0)))
    (hA : c.oracle.constIntBound c.actx A = ⟨aL, aU⟩)
    (hB : c.oracle.constIntBound c.actx B = ⟨bL, bU⟩)
    (hC : c.oracle.constIntBound c.actx C = ⟨cL, cU⟩)
    (hD : c.oracle.constIntBound c.actx (negOp D0) = ⟨dL, dU⟩)
    (hwf : aL ≤ aU ∧ bL ≤ bU ∧ cL ≤ cU ∧ dL ≤ dU)
    (hpos : 1 ≤ aL ∧ 1 ≤ bL ∧ 1 ≤ cL ∧ 1 ≤ dL)
    (hdfin : dU ≠ kPosInf)
    (h1 : i64Min ≤ min aU bU * dU) (h2 : min aU bU * dU ≤ i64Max)
    (hle : min aU bU * dU ≤ cL) :
    TryComparisonOfProductAndSum r c (.mul (.add A B) C) (.mul (.mul A B) De) = .ok kGT := by
  obtain ⟨hw1, hw2, hw3, hw4⟩ := hwf
  obtain ⟨hp1, hp2, hp3, hp4⟩ := hpos
  unfold TryComparisonOfProductAndSum
  rw [hflag]
  simp only [Bool.not_true, Bool.false_eq_true, if_false, hrec, except_bind_ok]
  simp only [matchProductSum]
  simp only [eq_self_iff_true, and_self, if_true, Option.some_orElse]
  simp only [hA, hB, hC, hD]
  simp only [if_neg (show ¬dU < 0 by omega)]
  simp only [if_neg (show ¬cU < 0 by omega)]
  simp only [if_neg (show ¬¬(aL > 0 ∧ bL > 0 ∧ cL > 0 ∧ dL > 0) from
    not_not_intro ⟨by omega, by omega, by omega, by omega⟩)]
  simp only [if_neg hdfin]
  unfold i64MulChk
  rw [if_neg (show ¬((aU ⊓ bU) * dU < i64Min ∨ i64Max < (aU ⊓ bU) * dU) from
    fun h => h.elim (fun hh => absurd h1 (not_le_of_lt hh))
      (fun hh => absurd h2 (not_le_of_lt hh)))]
  simp only [except_bind_ok]
  rw [if_pos hle]
  rfl

/-- `TryComparisonOfProductAndSum` returns `kUnknown` when the bound of the
(code-negated) `D` factor has no finite upper bound (lines 274-279). -/
theorem C4_sum_unknown_lemma
    (hflag : c.flags.comparisonOfProductAndSum = true)
    (hrec : r c (subOp (.mul (.add A B) C) (.mul (.mul A B) De)) =
      .ok (.add (.mul (.add A B) C) (.mul (.mul A B) D0)))
    (hA : c.oracle.constIntBound c.actx A = ⟨aL, aU⟩)
    (hB : c.oracle.constIntBound c.actx B = ⟨bL, bU⟩)
    (hC : c.oracle.constIntBound c.actx C = ⟨cL, cU⟩)
    (hD : c.oracle.constIntBound c.actx (negOp D0) = ⟨dL, dU⟩)
    (hwf : aL ≤ aU ∧ bL ≤ bU ∧ cL ≤ cU ∧ dL ≤ dU)
    (hpos : 1 ≤ aL ∧ 1 ≤ bL ∧ 1 ≤ cL ∧ 1 ≤ dL)
    (hdinf : dU = kPosInf) :
    TryComparisonOfProductAndSum r c (.mul (.add A B) C) (.mul (.mul A B) De) =
      .ok kUnknown := by
  obtain ⟨hw1, hw2, hw3, hw4⟩ := hwf
  obtain ⟨hp1, hp2, hp3, hp4⟩ := hpos
  unfold TryComparisonOfProductAndSum
  rw [hflag]
  simp only [Bool.not_true, Bool.false_eq_true, if_false, hrec, except_bind_ok]
  simp only [matchProductSum]
  simp only [eq_self_iff_true, and_self, if_true, Option.some_orElse]
  simp only [hA, hB, hC, hD]
  simp only [if_neg (show ¬dU < 0 by omega)]
  simp only [if_neg (show ¬cU < 0 by omega)]
  simp only [if_neg (show ¬¬(aL > 0 ∧ bL > 0 ∧ cL > 0 ∧ dL > 0) from
    not_not_intro ⟨by omega, by omega, by omega, by omega⟩)]
  rw [if_pos hdinf]
  rfl

/-- The literal/bound layer of `TryCompare` yields `kUnknown` when the
simplified difference is the matched product-sum shape and the analyzer has
no bound or modular information on it. -/
theorem C4_lit_lemma
    (hrec : r c (subOp (.mul (.add A B) C) (.mul (.mul A B) De)) =
      .ok (.add (.mul (.add A B) C) (.mul (.mul A B) D0)))
    (hdiffB : c.oracle.constIntBound c.actx
        (.add (.mul (.add A B) C) (.mul (.mul A B) D0)) = ⟨kNegInf, kPosInf⟩)
    (hdiffM : (c.oracle.modularSet c.actx
        (.add (.mul (.add A B) C) (.mul (.mul A B) D0))).base = 0) :
    TryCompareLit r c (subOp (.mul (.add A B) C) (.mul (.mul A B) De)) 0 = .ok kUnknown := by
  unfold TryCompareLit
  rw [hrec]
  simp only [except_bind_ok, hdiffB, hdiffM]
  norm_num [kNegInf, kPosInf, i64Max]
  rfl

/-- Claim C4 (amended): with the comparison-of-product-and-sum extension
enabled and the simplified difference taking the canonical shape
`(A+B)*C + (A*B)*D0`, if the analyzer bounds prove `A, B, C` and the code's
negated factor `-D0` all at least 1, then `TryCompare((A+B)*C, (A*B)*D)`
returns `GT` -- not the `LT` the spec states -- whenever `min(A,B)*D <= C`
holds on the (finite, overflow-safe) bounds, and returns `Unknown` whenever
the `D` factor has no finite upper bound. -/
theorem C4_trycompare
    (hflag : c.flags.comparisonOfProductAndSum = true)
    (hrec : r c (subOp (.mul (.add A B) C) (.mul (.mul A B) De)) =
      .ok (.add (.mul (.add A B) C) (.mul (.mul A B) D0)))
    (hdiffB : c.oracle.constIntBound c.actx
        (.add (.mul (.add A B) C) (.mul (.mul A B) D0)) = ⟨kNegInf, kPosInf⟩)
    (hdiffM : (c.oracle.modularSet c.actx
        (.add (.mul (.add A B) C) (.mul (.mul A B) D0))).base = 0)
    (htrans : c.oracle.transitiveCompare c.actx (.mul (.add A B) C) (.mul (.mul A B) De)
        c.flags.transitivelyProveInequalities = kUnknown)
    (hA : c.oracle.constIntBound c.actx A = ⟨aL, aU⟩)
    (hB : c.oracle.constIntBound c.actx B = ⟨bL, bU⟩)
    (hC : c.oracle.constIntBound c.actx C = ⟨cL, cU⟩)
    (hD : c.oracle.constIntBound c.actx (negOp D0) = ⟨dL, dU⟩)
    (hwf : aL ≤ aU ∧ bL ≤ bU ∧ cL ≤ cU ∧ dL ≤ dU)
    (hpos : 1 ≤ aL ∧ 1 ≤ bL ∧ 1 ≤ cL ∧ 1 ≤ dL) :
    (dU ≠ kPosInf → i64Min ≤ (aU ⊓ bU) * dU → (aU ⊓ bU) * dU ≤ i64Max →
      (aU ⊓ bU) * dU ≤ cL →
      TryCompare r c (.mul (.add A B) C) (.mul (.mul A B) De) = .ok kGT) ∧
    (dU = kPosInf →
      TryCompare r c (.mul (.add A B) C) (.mul (.mul A B) De) = .ok kUnknown) := by
  have hlit := C4_lit_lemma r c A B C D0 De hrec hdiffB hdiffM
  constructor
  · intro hdfin h1 h2 hle
    have hsum := C4_sum_lemma r c A B C D0 De aL aU bL bU cL cU dL dU
      hflag hrec hA hB hC hD hwf hpos hdfin h1 h2 hle
    unfold TryCompare
    rw [hlit]
    simp only [except_bind_ok]
    unfold TryCompareUsingKnownInequalities
    rw [htrans]
    rw [if_neg (show ¬(crIntersect kUnknown kUnknown = kEQ ∨
      crIntersect kUnknown kUnknown = kLT ∨ crIntersect kUnknown kUnknown = kGT) by decide)]
    rw [if_neg (show ¬(crIntersect (crIntersect kUnknown kUnknown) kUnknown = kEQ ∨
      crIntersect (crIntersect kUnknown kUnknown) kUnknown = kLT ∨
      crIntersect (crIntersect kUnknown kUnknown) kUnknown = kGT) by decide)]
    rw [hsum]
    rfl
  · intro hdinf
    have hsum := C4_sum_unknown_lemma r c A B C D0 De aL aU bL bU cL cU dL dU
      hflag hrec hA hB hC hD hwf hpos hdinf
    unfold TryCompare
    rw [hlit]
    simp only [except_bind_ok]
    unfold TryCompareUsingKnownInequalities
    rw [htrans]
    rw [if_neg (show ¬(crIntersect kUnknown kUnknown = kEQ ∨
      crIntersect kUnknown kUnknown = kLT ∨ crIntersect kUnknown kUnknown = kGT) by decide)]
    rw [if_neg (show ¬(crIntersect (crIntersect kUnknown kUnknown) kUnknown = kEQ ∨
      crIntersect (crIntersect kUnknown kUnknown) kUnknown = kLT ∨
      crIntersect (crIntersect kUnknown kUnknown) kUnknown = kGT) by decide)]
    rw [hsum]
    rfl

end C4

def av : Expr := .varE "A" .i32
def bv : Expr := .varE "B" .i32
def cvv : Expr := .varE "C" .i32

def oracleC4 : Oracle where
  constIntBound := fun _ e =>
    match e with
    | .varE "A" _ => ⟨1, 2⟩
    | .varE "B" _ => ⟨1, 3⟩
    | .varE "C" _ => ⟨4, 9⟩
    | .intImm _ v => ⟨v, v⟩
    | _ => ⟨kNegInf, kPosInf⟩
  modularSet := fun _ _ => ⟨1, 0⟩
  transitiveCompare := fun _ _ _ _ => kUnknown
  canProve := fun _ _ => false
  flog2 := fun _ => 0
  cnfConvert := id

def ctxC4 : Ctx := ⟨oracleC4, ⟨false, true, false, false⟩, [], [], [], false⟩

set_option maxRecDepth 200000 in
/-- Claim C4, counterexample: a full concrete run (real rewrite engine, a
bound oracle knowing `A in [1,2]`, `B in [1,3]`, `C in [4,9]`, `D = 2`)
where `min(A,B)*D = 4 <= 4 = C` holds, yet `TryCompare((A+B)*C, (A*B)*D)`
returns `kGT`, not the `kLT` the spec predicts. -/
theorem C4_cex :
    TryCompare (visit 3) ctxC4 (.mul (.add av bv) cvv)
      (.mul (.mul av bv) (.intImm .i32 2)) = .ok kGT ∧ kGT ≠ kLT :=
  ⟨rfl, by decide⟩

set_option maxRecDepth 200000 in
/-- Claim C4, witness: the amended theorem applied at the concrete run of
the counterexample oracle, with every hypothesis discharged by computation. -/
theorem C4_witness :
    TryCompare (visit 3) ctxC4 (.mul (.add av bv) cvv)
      (.mul (.mul av bv) (.intImm .i32 2)) = .ok kGT := by
  have hrec : visit 3 ctxC4 (subOp (.mul (.add av bv) cvv) (.mul (.mul av bv) (.intImm .i32 2))) =
      .ok (.add (.mul (.add av bv) cvv) (.mul (.mul av bv) (.intImm .i32 (-2)))) := rfl
  exact (C4_trycompare (visit 3) ctxC4 av bv cvv (.intImm .i32 (-2)) (.intImm .i32 2)
    1 2 1 3 4 9 2 2 rfl hrec rfl rfl rfl rfl rfl rfl rfl (by decide) (by decide)).1
    (by decide) (by decide) (by decide) (by decide)

/-- Claim C10 (amended): a `Div` node of float datatype whose divisor after
child simplification is a nonzero float literal, and which constant folding
declines (the dividend is not a literal of the same type), is unconditionally
rewritten into the product of the dividend with the literal reciprocal
`1/c`; no division with a float-literal divisor survives this visitor.  In
the rational model of floats the reciprocal is exact, so the amended claim
keeps the divisor nonzero and drops the irrepresentability wording; the
unamended claim is refuted by `C10_cex` (a folded literal quotient, not a
product). -/
theorem C10_float_divisor (r : Rec) (c : Ctx) (a : Expr) (d : DT) (v : Rat)
    (_hv : v ≠ 0)
    (hfold : TryConstFold2 .div a (.floatImm d v) = none)
    (hdt : (Expr.dtype a).isFloat = true) :
    VisitDiv r c a (.floatImm d v) = .ok (mulOp a (.floatImm d (1 / v))) := by
  unfold VisitDiv
  simp only [hfold]
  have hdt' : (Expr.div a (.floatImm d v)).dtype.isFloat = true := hdt
  rw [if_pos hdt']
  rfl

/-- Claim C10, witness: dividing an unknown float variable by the literal
`2.0` produces the product with the literal `0.5`. -/
theorem C10_witness :
    VisitDiv (visit 0) ctx0 (.varE "f" .f32) (.floatImm .f32 2) =
      .ok (mulOp (.varE "f" .f32) (.floatImm .f32 (1 / 2))) :=
  C10_float_divisor (visit 0) ctx0 (.varE "f" .f32) .f32 2 (by norm_num) rfl rfl

end RS
